import Mathlib

/-! Verification development for the tree-sitter grammar of the "fd" diagram
language.  The lexer DFA (function ts_lex of src/tree-sitter-fd/src/parser.c),
the LR parse tables (ts_parse_table, ts_small_parse_table), the action table
(ts_parse_actions), the lex-mode table (ts_lex_modes) and the field maps
(ts_field_map_slices / ts_field_map_entries) are embedded below as data,
translated state by state from the C source.  A shift-reduce driver interprets
the tables; the driver itself (the tree-sitter runtime) is not part of the
repository, so it is modelled from the specification. -/

/-- One lexer DFA transition rule: applies when the lookahead code point c
satisfies lo ≤ c ≤ hi; `isSkip` is true for SKIP transitions (whitespace:
the token start moves past the consumed character). -/
structure LexRule where
  lo : Nat
  hi : Nat
  tgt : Nat
  isSkip : Bool
deriving DecidableEq, Repr

def korr (lo hi tgt : Nat) (isSkip : Bool) : LexRule := ⟨lo, hi, tgt, isSkip⟩

/-- One state of the ts_lex DFA: the token accepted on entering the state
(ACCEPT_TOKEN), the target of an `if (eof) ADVANCE(..)` check, and the
ordered transition rules (first match wins, as in the C if-chains). -/
structure LexSt where
  acc : Option Nat
  eofTgt : Option Nat
  rules : List LexRule
deriving DecidableEq, Repr

def mkLexSt (acc eofTgt : Option Nat) (rules : List LexRule) : LexSt :=
  ⟨acc, eofTgt, rules⟩

/-- One parse-table cell: for a terminal symbol the value indexes
ts_parse_actions, for a non-terminal it is the goto state. -/
structure Pent where
  sym : Nat
  val : Nat
deriving DecidableEq, Repr

def korp (sym val : Nat) : Pent := ⟨sym, val⟩

/-- A parse action from ts_parse_actions. -/
inductive PAct where
  | shift (s : Nat)
  | shiftExtra
  | shiftRepeat (s : Nat)
  | reduce (lhs n pid : Nat)
  | recover
  | acceptInput
deriving DecidableEq, Repr

def lexTable : List LexSt := [
  mkLexSt (none) (some 117) [korr 34 34 479 false, korr 35 35 6 false, korr 45 45 10 false, korr 58 58 123 false, korr 61 61 337 false, korr 64 64 342 false, korr 97 97 359 false, korr 98 98 386 false, korr 99 99 367 false, korr 100 100 459 false, korr 101 101 355 false, korr 102 102 393 false, korr 103 103 427 false, korr 104 104 280 false, korr 108 108 345 false, korr 111 111 384 false, korr 112 112 346 false, korr 114 114 379 false, korr 115 115 361 false, korr 116 116 348 false, korr 117 117 435 false, korr 119 119 277 false, korr 123 123 259 false, korr 125 125 260 false, korr 9 13 0 true, korr 32 32 0 true, korr 48 57 471 false, korr 65 90 469 false, korr 95 95 469 false, korr 105 122 469 false],
  mkLexSt (none) (none) [korr 10 10 1 true, korr 34 34 480 false, korr 35 35 128 false, korr 97 97 144 false, korr 98 98 169 false, korr 99 99 152 false, korr 100 100 238 false, korr 101 101 141 false, korr 102 102 176 false, korr 103 103 208 false, korr 104 104 282 false, korr 108 108 130 false, korr 111 111 167 false, korr 112 112 131 false, korr 114 114 162 false, korr 115 115 147 false, korr 116 116 132 false, korr 117 117 214 false, korr 119 119 279 false, korr 125 125 261 false, korr 9 13 125 false, korr 32 32 125 false, korr 1 1114111 247 false],
  mkLexSt (none) (none) [korr 10 10 2 true, korr 34 34 480 false, korr 35 35 127 false, korr 9 13 126 false, korr 32 32 126 false, korr 1 1114111 247 false],
  mkLexSt (none) (none) [korr 34 34 479 false, korr 35 35 6 false, korr 45 45 110 false, korr 61 61 337 false, korr 64 64 342 false, korr 97 97 410 false, korr 98 98 386 false, korr 99 99 367 false, korr 100 100 459 false, korr 101 101 355 false, korr 102 102 393 false, korr 103 103 427 false, korr 104 104 280 false, korr 108 108 345 false, korr 111 111 384 false, korr 112 112 347 false, korr 114 114 379 false, korr 115 115 362 false, korr 116 116 368 false, korr 117 117 435 false, korr 119 119 277 false, korr 125 125 260 false, korr 9 13 3 true, korr 32 32 3 true, korr 48 57 471 false, korr 65 90 469 false, korr 95 95 469 false, korr 105 122 469 false],
  mkLexSt (none) (none) [korr 34 34 479 false, korr 35 35 112 false, korr 45 45 110 false, korr 61 61 337 false, korr 64 64 342 false, korr 98 98 386 false, korr 99 99 367 false, korr 100 100 459 false, korr 101 101 356 false, korr 102 102 393 false, korr 104 104 280 false, korr 108 108 345 false, korr 111 111 384 false, korr 114 114 420 false, korr 115 115 362 false, korr 116 116 432 false, korr 117 117 435 false, korr 119 119 277 false, korr 125 125 260 false, korr 9 13 4 true, korr 32 32 4 true, korr 48 57 471 false, korr 65 90 469 false, korr 95 95 469 false, korr 97 122 469 false],
  mkLexSt (none) (none) [korr 34 34 479 false, korr 35 35 112 false, korr 45 45 110 false, korr 64 64 342 false, korr 9 13 5 true, korr 32 32 5 true, korr 48 57 471 false, korr 65 90 469 false, korr 95 95 469 false, korr 97 122 469 false],
  mkLexSt (none) (none) [korr 35 35 121 false, korr 48 57 119 false, korr 65 70 119 false, korr 97 102 119 false, korr 1 9 120 false, korr 11 1114111 120 false],
  mkLexSt (none) (none) [korr 35 35 121 false, korr 1 9 120 false, korr 11 1114111 120 false],
  mkLexSt (none) (none) [korr 35 35 113 false, korr 9 13 8 true, korr 32 32 8 true, korr 65 90 469 false, korr 95 95 469 false, korr 97 122 469 false],
  mkLexSt (none) (none) [korr 62 62 341 false],
  mkLexSt (none) (none) [korr 62 62 341 false, korr 48 57 471 false],
  mkLexSt (none) (none) [korr 95 95 53 false],
  mkLexSt (none) (none) [korr 97 97 109 false],
  mkLexSt (none) (none) [korr 97 97 89 false],
  mkLexSt (none) (none) [korr 97 97 23 false],
  mkLexSt (none) (none) [korr 97 97 25 false],
  mkLexSt (none) (none) [korr 97 97 85 false, korr 108 108 57 false],
  mkLexSt (none) (none) [korr 97 97 68 false],
  mkLexSt (none) (none) [korr 97 97 59 false],
  mkLexSt (none) (none) [korr 97 97 99 false],
  mkLexSt (none) (none) [korr 97 97 100 false],
  mkLexSt (none) (none) [korr 97 97 102 false],
  mkLexSt (none) (none) [korr 99 99 18 false, korr 104 104 15 false, korr 116 116 80 false],
  mkLexSt (none) (none) [korr 99 99 54 false],
  mkLexSt (none) (none) [korr 99 99 91 false],
  mkLexSt (none) (none) [korr 100 100 71 false],
  mkLexSt (none) (none) [korr 100 100 98 false],
  mkLexSt (none) (none) [korr 101 101 24 false, korr 111 111 101 false],
  mkLexSt (none) (none) [korr 101 101 107 false, korr 114 114 17 false],
  mkLexSt (none) (none) [korr 101 101 307 false],
  mkLexSt (none) (none) [korr 101 101 331 false],
  mkLexSt (none) (none) [korr 101 101 316 false],
  mkLexSt (none) (none) [korr 101 101 256 false],
  mkLexSt (none) (none) [korr 101 101 319 false],
  mkLexSt (none) (none) [korr 101 101 292 false],
  mkLexSt (none) (none) [korr 101 101 268 false],
  mkLexSt (none) (none) [korr 101 101 322 false],
  mkLexSt (none) (none) [korr 101 101 66 false, korr 111 111 81 false],
  mkLexSt (none) (none) [korr 101 101 78 false],
  mkLexSt (none) (none) [korr 101 101 79 false],
  mkLexSt (none) (none) [korr 101 101 95 false],
  mkLexSt (none) (none) [korr 102 102 42 false, korr 112 112 14 false],
  mkLexSt (none) (none) [korr 102 102 86 false],
  mkLexSt (none) (none) [korr 103 103 304 false],
  mkLexSt (none) (none) [korr 103 103 47 false],
  mkLexSt (none) (none) [korr 104 104 271 false],
  mkLexSt (none) (none) [korr 104 104 283 false],
  mkLexSt (none) (none) [korr 104 104 93 false],
  mkLexSt (none) (none) [korr 105 105 62 false],
  mkLexSt (none) (none) [korr 105 105 76 false],
  mkLexSt (none) (none) [korr 105 105 44 false],
  mkLexSt (none) (none) [korr 105 105 58 false, korr 111 111 67 false],
  mkLexSt (none) (none) [korr 105 105 74 false],
  mkLexSt (none) (none) [korr 105 105 65 false],
  mkLexSt (none) (none) [korr 105 105 96 false],
  mkLexSt (none) (none) [korr 107 107 34 false],
  mkLexSt (none) (none) [korr 108 108 289 false],
  mkLexSt (none) (none) [korr 108 108 49 false],
  mkLexSt (none) (none) [korr 108 108 56 false],
  mkLexSt (none) (none) [korr 108 108 31 false],
  mkLexSt (none) (none) [korr 108 108 32 false],
  mkLexSt (none) (none) [korr 108 108 21 false],
  mkLexSt (none) (none) [korr 109 109 338 false],
  mkLexSt (none) (none) [korr 110 110 48 false],
  mkLexSt (none) (none) [korr 110 110 334 false],
  mkLexSt (none) (none) [korr 110 110 325 false],
  mkLexSt (none) (none) [korr 110 110 97 false],
  mkLexSt (none) (none) [korr 110 110 90 false],
  mkLexSt (none) (none) [korr 110 110 87 false],
  mkLexSt (none) (none) [korr 110 110 39 false],
  mkLexSt (none) (none) [korr 111 111 55 false],
  mkLexSt (none) (none) [korr 111 111 106 false],
  mkLexSt (none) (none) [korr 111 111 103 false],
  mkLexSt (none) (none) [korr 111 111 105 false],
  mkLexSt (none) (none) [korr 111 111 64 false],
  mkLexSt (none) (none) [korr 112 112 262 false],
  mkLexSt (none) (none) [korr 112 112 88 false],
  mkLexSt (none) (none) [korr 114 114 72 false],
  mkLexSt (none) (none) [korr 114 114 11 false],
  mkLexSt (none) (none) [korr 114 114 295 false],
  mkLexSt (none) (none) [korr 114 114 70 false, korr 121 121 60 false],
  mkLexSt (none) (none) [korr 114 114 69 false],
  mkLexSt (none) (none) [korr 114 114 19 false],
  mkLexSt (none) (none) [korr 115 115 470 false],
  mkLexSt (none) (none) [korr 115 115 29 false],
  mkLexSt (none) (none) [korr 115 115 30 false],
  mkLexSt (none) (none) [korr 115 115 40 false],
  mkLexSt (none) (none) [korr 115 115 61 false],
  mkLexSt (none) (none) [korr 115 115 35 false],
  mkLexSt (none) (none) [korr 116 116 45 false],
  mkLexSt (none) (none) [korr 116 116 301 false],
  mkLexSt (none) (none) [korr 116 116 265 false],
  mkLexSt (none) (none) [korr 116 116 274 false],
  mkLexSt (none) (none) [korr 116 116 286 false],
  mkLexSt (none) (none) [korr 116 116 310 false],
  mkLexSt (none) (none) [korr 116 116 328 false],
  mkLexSt (none) (none) [korr 116 116 108 false],
  mkLexSt (none) (none) [korr 116 116 38 false],
  mkLexSt (none) (none) [korr 116 116 46 false],
  mkLexSt (none) (none) [korr 116 116 52 false],
  mkLexSt (none) (none) [korr 116 116 33 false],
  mkLexSt (none) (none) [korr 116 116 20 false],
  mkLexSt (none) (none) [korr 116 116 36 false],
  mkLexSt (none) (none) [korr 117 117 75 false],
  mkLexSt (none) (none) [korr 117 117 82 false],
  mkLexSt (none) (none) [korr 117 117 94 false],
  mkLexSt (none) (none) [korr 119 119 313 false],
  mkLexSt (none) (none) [korr 120 120 92 false],
  mkLexSt (none) (none) [korr 121 121 298 false],
  mkLexSt (none) (none) [korr 121 121 73 false],
  mkLexSt (none) (none) [korr 48 57 471 false],
  mkLexSt (none) (none) [korr 48 57 472 false],
  mkLexSt (none) (none) [korr 48 57 119 false, korr 65 70 119 false, korr 97 102 119 false, korr 1 9 120 false, korr 11 34 120 false, korr 36 1114111 120 false],
  mkLexSt (none) (none) [korr 1 9 120 false, korr 11 34 120 false, korr 36 1114111 120 false],
  mkLexSt (none) (some 117) [korr 10 10 114 true, korr 34 34 480 false, korr 35 35 128 false, korr 64 64 343 false, korr 97 97 145 false, korr 101 101 185 false, korr 103 103 208 false, korr 112 112 131 false, korr 114 114 163 false, korr 115 115 228 false, korr 116 116 133 false, korr 9 13 124 false, korr 32 32 124 false, korr 1 1114111 247 false],
  mkLexSt (none) (some 117) [korr 34 34 479 false, korr 35 35 6 false, korr 45 45 110 false, korr 61 61 337 false, korr 64 64 342 false, korr 101 101 402 false, korr 103 103 427 false, korr 112 112 347 false, korr 114 114 380 false, korr 115 115 453 false, korr 116 116 369 false, korr 9 13 115 true, korr 32 32 115 true, korr 48 57 471 false, korr 65 90 469 false, korr 95 95 469 false, korr 97 122 469 false],
  mkLexSt (none) (some 117) [korr 34 34 479 false, korr 35 35 7 false, korr 45 45 9 false, korr 58 58 123 false, korr 64 64 342 false, korr 97 97 63 false, korr 98 98 43 false, korr 99 99 37 false, korr 100 100 104 false, korr 101 101 16 false, korr 102 102 51 false, korr 103 103 77 false, korr 104 104 281 false, korr 108 108 12 false, korr 111 111 41 false, korr 112 112 13 false, korr 114 114 27 false, korr 115 115 22 false, korr 116 116 28 false, korr 117 117 84 false, korr 119 119 278 false, korr 123 123 259 false, korr 125 125 260 false, korr 9 13 116 true, korr 32 32 116 true],
  mkLexSt (some 0) (none) [],
  mkLexSt (some 1) (none) [korr 48 57 478 false, korr 65 70 478 false, korr 97 102 478 false, korr 1 9 120 false, korr 11 1114111 120 false],
  mkLexSt (some 1) (none) [korr 48 57 118 false, korr 65 70 118 false, korr 97 102 118 false, korr 1 9 120 false, korr 11 1114111 120 false],
  mkLexSt (some 1) (none) [korr 1 9 120 false, korr 11 1114111 120 false],
  mkLexSt (some 2) (none) [],
  mkLexSt (some 2) (none) [korr 1 9 247 false, korr 11 1114111 247 false],
  mkLexSt (some 3) (none) [],
  mkLexSt (some 4) (none) [korr 34 34 480 false, korr 35 35 128 false, korr 64 64 343 false, korr 97 97 145 false, korr 101 101 185 false, korr 103 103 208 false, korr 112 112 131 false, korr 114 114 163 false, korr 115 115 228 false, korr 116 116 133 false, korr 9 9 124 false, korr 11 13 124 false, korr 32 32 124 false, korr 1 8 247 false, korr 14 1114111 247 false],
  mkLexSt (some 4) (none) [korr 34 34 480 false, korr 35 35 128 false, korr 97 97 144 false, korr 98 98 169 false, korr 99 99 152 false, korr 100 100 238 false, korr 101 101 141 false, korr 102 102 176 false, korr 103 103 208 false, korr 104 104 282 false, korr 108 108 130 false, korr 111 111 167 false, korr 112 112 131 false, korr 114 114 162 false, korr 115 115 147 false, korr 116 116 132 false, korr 117 117 214 false, korr 119 119 279 false, korr 125 125 261 false, korr 9 9 125 false, korr 11 13 125 false, korr 32 32 125 false, korr 1 8 247 false, korr 14 1114111 247 false],
  mkLexSt (some 4) (none) [korr 34 34 480 false, korr 35 35 127 false, korr 9 9 126 false, korr 11 13 126 false, korr 32 32 126 false, korr 1 8 247 false, korr 14 1114111 247 false],
  mkLexSt (some 4) (none) [korr 35 35 247 false, korr 1 9 247 false, korr 11 1114111 247 false],
  mkLexSt (some 4) (none) [korr 35 35 122 false, korr 1 9 247 false, korr 11 1114111 247 false],
  mkLexSt (some 4) (none) [korr 95 95 180 false, korr 1 9 247 false, korr 11 1114111 247 false],
  mkLexSt (some 4) (none) [korr 97 97 246 false, korr 1 9 247 false, korr 11 1114111 247 false],
  mkLexSt (some 4) (none) [korr 97 97 220 false, korr 114 114 177 false, korr 1 9 247 false, korr 11 1114111 247 false],
  mkLexSt (some 4) (none) [korr 97 97 170 false, korr 101 101 243 false, korr 114 114 136 false, korr 1 9 247 false, korr 11 1114111 247 false],
  mkLexSt (some 4) (none) [korr 97 97 170 false, korr 101 101 243 false, korr 1 9 247 false, korr 11 1114111 247 false],
  mkLexSt (some 4) (none) [korr 97 97 150 false, korr 1 9 247 false, korr 11 1114111 247 false],
  mkLexSt (some 4) (none) [korr 97 97 148 false, korr 1 9 247 false, korr 11 1114111 247 false],
  mkLexSt (some 4) (none) [korr 97 97 195 false, korr 1 9 247 false, korr 11 1114111 247 false],
  mkLexSt (some 4) (none) [korr 97 97 189 false, korr 1 9 247 false, korr 11 1114111 247 false],
  mkLexSt (some 4) (none) [korr 97 97 232 false, korr 114 114 199 false, korr 1 9 247 false, korr 11 1114111 247 false],
  mkLexSt (some 4) (none) [korr 97 97 232 false, korr 121 121 190 false, korr 1 9 247 false, korr 11 1114111 247 false],
  mkLexSt (some 4) (none) [korr 97 97 234 false, korr 1 9 247 false, korr 11 1114111 247 false],
  mkLexSt (some 4) (none) [korr 97 97 216 false, korr 108 108 188 false, korr 1 9 247 false, korr 11 1114111 247 false],
  mkLexSt (some 4) (none) [korr 97 97 236 false, korr 1 9 247 false, korr 11 1114111 247 false],
  mkLexSt (some 4) (none) [korr 97 97 237 false, korr 1 9 247 false, korr 11 1114111 247 false],
  mkLexSt (some 4) (none) [korr 99 99 146 false, korr 110 110 175 false, korr 1 9 247 false, korr 11 1114111 247 false],
  mkLexSt (some 4) (none) [korr 99 99 146 false, korr 1 9 247 false, korr 11 1114111 247 false],
  mkLexSt (some 4) (none) [korr 99 99 154 false, korr 1 9 247 false, korr 11 1114111 247 false],
  mkLexSt (some 4) (none) [korr 99 99 137 false, korr 104 104 134 false, korr 116 116 138 false, korr 1 9 247 false, korr 11 1114111 247 false],
  mkLexSt (some 4) (none) [korr 99 99 182 false, korr 1 9 247 false, korr 11 1114111 247 false],
  mkLexSt (some 4) (none) [korr 99 99 222 false, korr 1 9 247 false, korr 11 1114111 247 false],
  mkLexSt (some 4) (none) [korr 100 100 200 false, korr 1 9 247 false, korr 11 1114111 247 false],
  mkLexSt (some 4) (none) [korr 100 100 231 false, korr 1 9 247 false, korr 11 1114111 247 false],
  mkLexSt (some 4) (none) [korr 101 101 196 false, korr 111 111 211 false, korr 1 9 247 false, korr 11 1114111 247 false],
  mkLexSt (some 4) (none) [korr 101 101 309 false, korr 1 9 247 false, korr 11 1114111 247 false],
  mkLexSt (some 4) (none) [korr 101 101 206 false, korr 1 9 247 false, korr 11 1114111 247 false],
  mkLexSt (some 4) (none) [korr 101 101 333 false, korr 1 9 247 false, korr 11 1114111 247 false],
  mkLexSt (some 4) (none) [korr 101 101 318 false, korr 1 9 247 false, korr 11 1114111 247 false],
  mkLexSt (some 4) (none) [korr 101 101 321 false, korr 1 9 247 false, korr 11 1114111 247 false],
  mkLexSt (some 4) (none) [korr 101 101 294 false, korr 1 9 247 false, korr 11 1114111 247 false],
  mkLexSt (some 4) (none) [korr 101 101 270 false, korr 1 9 247 false, korr 11 1114111 247 false],
  mkLexSt (some 4) (none) [korr 101 101 324 false, korr 1 9 247 false, korr 11 1114111 247 false],
  mkLexSt (some 4) (none) [korr 101 101 258 false, korr 1 9 247 false, korr 11 1114111 247 false],
  mkLexSt (some 4) (none) [korr 101 101 149 false, korr 111 111 235 false, korr 1 9 247 false, korr 11 1114111 247 false],
  mkLexSt (some 4) (none) [korr 101 101 149 false, korr 1 9 247 false, korr 11 1114111 247 false],
  mkLexSt (some 4) (none) [korr 101 101 209 false, korr 1 9 247 false, korr 11 1114111 247 false],
  mkLexSt (some 4) (none) [korr 101 101 210 false, korr 1 9 247 false, korr 11 1114111 247 false],
  mkLexSt (some 4) (none) [korr 101 101 227 false, korr 1 9 247 false, korr 11 1114111 247 false],
  mkLexSt (some 4) (none) [korr 102 102 168 false, korr 112 112 135 false, korr 1 9 247 false, korr 11 1114111 247 false],
  mkLexSt (some 4) (none) [korr 102 102 218 false, korr 1 9 247 false, korr 11 1114111 247 false],
  mkLexSt (some 4) (none) [korr 103 103 306 false, korr 1 9 247 false, korr 11 1114111 247 false],
  mkLexSt (some 4) (none) [korr 103 103 255 false, korr 1 9 247 false, korr 11 1114111 247 false],
  mkLexSt (some 4) (none) [korr 103 103 174 false, korr 1 9 247 false, korr 11 1114111 247 false],
  mkLexSt (some 4) (none) [korr 104 104 273 false, korr 1 9 247 false, korr 11 1114111 247 false],
  mkLexSt (some 4) (none) [korr 104 104 285 false, korr 1 9 247 false, korr 11 1114111 247 false],
  mkLexSt (some 4) (none) [korr 104 104 225 false, korr 1 9 247 false, korr 11 1114111 247 false],
  mkLexSt (some 4) (none) [korr 105 105 192 false, korr 1 9 247 false, korr 11 1114111 247 false],
  mkLexSt (some 4) (none) [korr 105 105 187 false, korr 111 111 197 false, korr 1 9 247 false, korr 11 1114111 247 false],
  mkLexSt (some 4) (none) [korr 105 105 203 false, korr 1 9 247 false, korr 11 1114111 247 false],
  mkLexSt (some 4) (none) [korr 105 105 207 false, korr 1 9 247 false, korr 11 1114111 247 false],
  mkLexSt (some 4) (none) [korr 105 105 171 false, korr 1 9 247 false, korr 11 1114111 247 false],
  mkLexSt (some 4) (none) [korr 105 105 194 false, korr 1 9 247 false, korr 11 1114111 247 false],
  mkLexSt (some 4) (none) [korr 105 105 204 false, korr 1 9 247 false, korr 11 1114111 247 false],
  mkLexSt (some 4) (none) [korr 105 105 229 false, korr 1 9 247 false, korr 11 1114111 247 false],
  mkLexSt (some 4) (none) [korr 105 105 230 false, korr 1 9 247 false, korr 11 1114111 247 false],
  mkLexSt (some 4) (none) [korr 107 107 158 false, korr 1 9 247 false, korr 11 1114111 247 false],
  mkLexSt (some 4) (none) [korr 108 108 188 false, korr 1 9 247 false, korr 11 1114111 247 false],
  mkLexSt (some 4) (none) [korr 108 108 291 false, korr 1 9 247 false, korr 11 1114111 247 false],
  mkLexSt (some 4) (none) [korr 108 108 186 false, korr 1 9 247 false, korr 11 1114111 247 false],
  mkLexSt (some 4) (none) [korr 108 108 178 false, korr 1 9 247 false, korr 11 1114111 247 false],
  mkLexSt (some 4) (none) [korr 108 108 156 false, korr 1 9 247 false, korr 11 1114111 247 false],
  mkLexSt (some 4) (none) [korr 108 108 161 false, korr 1 9 247 false, korr 11 1114111 247 false],
  mkLexSt (some 4) (none) [korr 108 108 143 false, korr 1 9 247 false, korr 11 1114111 247 false],
  mkLexSt (some 4) (none) [korr 109 109 340 false, korr 1 9 247 false, korr 11 1114111 247 false],
  mkLexSt (some 4) (none) [korr 110 110 336 false, korr 1 9 247 false, korr 11 1114111 247 false],
  mkLexSt (some 4) (none) [korr 110 110 327 false, korr 1 9 247 false, korr 11 1114111 247 false],
  mkLexSt (some 4) (none) [korr 110 110 217 false, korr 1 9 247 false, korr 11 1114111 247 false],
  mkLexSt (some 4) (none) [korr 110 110 233 false, korr 1 9 247 false, korr 11 1114111 247 false],
  mkLexSt (some 4) (none) [korr 110 110 221 false, korr 1 9 247 false, korr 11 1114111 247 false],
  mkLexSt (some 4) (none) [korr 110 110 165 false, korr 1 9 247 false, korr 11 1114111 247 false],
  mkLexSt (some 4) (none) [korr 111 111 184 false, korr 1 9 247 false, korr 11 1114111 247 false],
  mkLexSt (some 4) (none) [korr 111 111 242 false, korr 1 9 247 false, korr 11 1114111 247 false],
  mkLexSt (some 4) (none) [korr 111 111 240 false, korr 1 9 247 false, korr 11 1114111 247 false],
  mkLexSt (some 4) (none) [korr 111 111 241 false, korr 1 9 247 false, korr 11 1114111 247 false],
  mkLexSt (some 4) (none) [korr 111 111 213 false, korr 1 9 247 false, korr 11 1114111 247 false],
  mkLexSt (some 4) (none) [korr 111 111 193 false, korr 1 9 247 false, korr 11 1114111 247 false],
  mkLexSt (some 4) (none) [korr 112 112 264 false, korr 1 9 247 false, korr 11 1114111 247 false],
  mkLexSt (some 4) (none) [korr 112 112 224 false, korr 1 9 247 false, korr 11 1114111 247 false],
  mkLexSt (some 4) (none) [korr 112 112 219 false, korr 1 9 247 false, korr 11 1114111 247 false],
  mkLexSt (some 4) (none) [korr 114 114 201 false, korr 1 9 247 false, korr 11 1114111 247 false],
  mkLexSt (some 4) (none) [korr 114 114 129 false, korr 1 9 247 false, korr 11 1114111 247 false],
  mkLexSt (some 4) (none) [korr 114 114 297 false, korr 1 9 247 false, korr 11 1114111 247 false],
  mkLexSt (some 4) (none) [korr 114 114 198 false, korr 1 9 247 false, korr 11 1114111 247 false],
  mkLexSt (some 4) (none) [korr 114 114 140 false, korr 1 9 247 false, korr 11 1114111 247 false],
  mkLexSt (some 4) (none) [korr 114 114 183 false, korr 1 9 247 false, korr 11 1114111 247 false],
  mkLexSt (some 4) (none) [korr 115 115 153 false, korr 1 9 247 false, korr 11 1114111 247 false],
  mkLexSt (some 4) (none) [korr 115 115 251 false, korr 1 9 247 false, korr 11 1114111 247 false],
  mkLexSt (some 4) (none) [korr 115 115 155 false, korr 1 9 247 false, korr 11 1114111 247 false],
  mkLexSt (some 4) (none) [korr 115 115 191 false, korr 1 9 247 false, korr 11 1114111 247 false],
  mkLexSt (some 4) (none) [korr 115 115 166 false, korr 1 9 247 false, korr 11 1114111 247 false],
  mkLexSt (some 4) (none) [korr 115 115 159 false, korr 1 9 247 false, korr 11 1114111 247 false],
  mkLexSt (some 4) (none) [korr 116 116 172 false, korr 1 9 247 false, korr 11 1114111 247 false],
  mkLexSt (some 4) (none) [korr 116 116 303 false, korr 1 9 247 false, korr 11 1114111 247 false],
  mkLexSt (some 4) (none) [korr 116 116 267 false, korr 1 9 247 false, korr 11 1114111 247 false],
  mkLexSt (some 4) (none) [korr 116 116 276 false, korr 1 9 247 false, korr 11 1114111 247 false],
  mkLexSt (some 4) (none) [korr 116 116 249 false, korr 1 9 247 false, korr 11 1114111 247 false],
  mkLexSt (some 4) (none) [korr 116 116 288 false, korr 1 9 247 false, korr 11 1114111 247 false],
  mkLexSt (some 4) (none) [korr 116 116 312 false, korr 1 9 247 false, korr 11 1114111 247 false],
  mkLexSt (some 4) (none) [korr 116 116 330 false, korr 1 9 247 false, korr 11 1114111 247 false],
  mkLexSt (some 4) (none) [korr 116 116 139 false, korr 1 9 247 false, korr 11 1114111 247 false],
  mkLexSt (some 4) (none) [korr 116 116 244 false, korr 1 9 247 false, korr 11 1114111 247 false],
  mkLexSt (some 4) (none) [korr 116 116 245 false, korr 1 9 247 false, korr 11 1114111 247 false],
  mkLexSt (some 4) (none) [korr 116 116 173 false, korr 1 9 247 false, korr 11 1114111 247 false],
  mkLexSt (some 4) (none) [korr 116 116 239 false, korr 1 9 247 false, korr 11 1114111 247 false],
  mkLexSt (some 4) (none) [korr 116 116 164 false, korr 1 9 247 false, korr 11 1114111 247 false],
  mkLexSt (some 4) (none) [korr 116 116 181 false, korr 1 9 247 false, korr 11 1114111 247 false],
  mkLexSt (some 4) (none) [korr 116 116 142 false, korr 1 9 247 false, korr 11 1114111 247 false],
  mkLexSt (some 4) (none) [korr 116 116 157 false, korr 1 9 247 false, korr 11 1114111 247 false],
  mkLexSt (some 4) (none) [korr 116 116 160 false, korr 1 9 247 false, korr 11 1114111 247 false],
  mkLexSt (some 4) (none) [korr 117 117 212 false, korr 1 9 247 false, korr 11 1114111 247 false],
  mkLexSt (some 4) (none) [korr 117 117 215 false, korr 1 9 247 false, korr 11 1114111 247 false],
  mkLexSt (some 4) (none) [korr 117 117 205 false, korr 1 9 247 false, korr 11 1114111 247 false],
  mkLexSt (some 4) (none) [korr 117 117 226 false, korr 1 9 247 false, korr 11 1114111 247 false],
  mkLexSt (some 4) (none) [korr 119 119 315 false, korr 1 9 247 false, korr 11 1114111 247 false],
  mkLexSt (some 4) (none) [korr 120 120 223 false, korr 1 9 247 false, korr 11 1114111 247 false],
  mkLexSt (some 4) (none) [korr 121 121 300 false, korr 1 9 247 false, korr 11 1114111 247 false],
  mkLexSt (some 4) (none) [korr 121 121 253 false, korr 1 9 247 false, korr 11 1114111 247 false],
  mkLexSt (some 4) (none) [korr 121 121 202 false, korr 1 9 247 false, korr 11 1114111 247 false],
  mkLexSt (some 4) (none) [korr 1 9 247 false, korr 11 1114111 247 false],
  mkLexSt (some 5) (none) [korr 48 57 469 false, korr 65 90 469 false, korr 95 95 469 false, korr 97 122 469 false],
  mkLexSt (some 5) (none) [korr 1 9 247 false, korr 11 1114111 247 false],
  mkLexSt (some 6) (none) [korr 48 57 469 false, korr 65 90 469 false, korr 95 95 469 false, korr 97 122 469 false],
  mkLexSt (some 6) (none) [korr 1 9 247 false, korr 11 1114111 247 false],
  mkLexSt (some 7) (none) [korr 48 57 469 false, korr 65 90 469 false, korr 95 95 469 false, korr 97 122 469 false],
  mkLexSt (some 7) (none) [korr 1 9 247 false, korr 11 1114111 247 false],
  mkLexSt (some 8) (none) [korr 48 57 469 false, korr 65 90 469 false, korr 95 95 469 false, korr 97 122 469 false],
  mkLexSt (some 8) (none) [korr 1 9 247 false, korr 11 1114111 247 false],
  mkLexSt (some 9) (none) [],
  mkLexSt (some 9) (none) [korr 48 57 469 false, korr 65 90 469 false, korr 95 95 469 false, korr 97 122 469 false],
  mkLexSt (some 9) (none) [korr 1 9 247 false, korr 11 1114111 247 false],
  mkLexSt (some 10) (none) [],
  mkLexSt (some 11) (none) [],
  mkLexSt (some 11) (none) [korr 1 9 247 false, korr 11 1114111 247 false],
  mkLexSt (some 12) (none) [],
  mkLexSt (some 12) (none) [korr 48 57 469 false, korr 65 90 469 false, korr 95 95 469 false, korr 97 122 469 false],
  mkLexSt (some 12) (none) [korr 1 9 247 false, korr 11 1114111 247 false],
  mkLexSt (some 13) (none) [],
  mkLexSt (some 13) (none) [korr 48 57 469 false, korr 65 90 469 false, korr 95 95 469 false, korr 97 122 469 false],
  mkLexSt (some 13) (none) [korr 1 9 247 false, korr 11 1114111 247 false],
  mkLexSt (some 14) (none) [],
  mkLexSt (some 14) (none) [korr 48 57 469 false, korr 65 90 469 false, korr 95 95 469 false, korr 97 122 469 false],
  mkLexSt (some 14) (none) [korr 1 9 247 false, korr 11 1114111 247 false],
  mkLexSt (some 15) (none) [],
  mkLexSt (some 15) (none) [korr 48 57 469 false, korr 65 90 469 false, korr 95 95 469 false, korr 97 122 469 false],
  mkLexSt (some 15) (none) [korr 1 9 247 false, korr 11 1114111 247 false],
  mkLexSt (some 16) (none) [],
  mkLexSt (some 16) (none) [korr 48 57 469 false, korr 65 90 469 false, korr 95 95 469 false, korr 97 122 469 false],
  mkLexSt (some 16) (none) [korr 1 9 247 false, korr 11 1114111 247 false],
  mkLexSt (some 17) (none) [korr 105 105 366 false, korr 48 57 469 false, korr 65 90 469 false, korr 95 95 469 false, korr 97 122 469 false],
  mkLexSt (some 17) (none) [korr 105 105 26 false],
  mkLexSt (some 17) (none) [korr 105 105 151 false, korr 1 9 247 false, korr 11 1114111 247 false],
  mkLexSt (some 18) (none) [korr 101 101 396 false, korr 48 57 469 false, korr 65 90 469 false, korr 95 95 469 false, korr 97 122 469 false],
  mkLexSt (some 18) (none) [korr 101 101 50 false],
  mkLexSt (some 18) (none) [korr 101 101 179 false, korr 1 9 247 false, korr 11 1114111 247 false],
  mkLexSt (some 19) (none) [],
  mkLexSt (some 19) (none) [korr 48 57 469 false, korr 65 90 469 false, korr 95 95 469 false, korr 97 122 469 false],
  mkLexSt (some 19) (none) [korr 1 9 247 false, korr 11 1114111 247 false],
  mkLexSt (some 20) (none) [],
  mkLexSt (some 20) (none) [korr 48 57 469 false, korr 65 90 469 false, korr 95 95 469 false, korr 97 122 469 false],
  mkLexSt (some 20) (none) [korr 1 9 247 false, korr 11 1114111 247 false],
  mkLexSt (some 21) (none) [],
  mkLexSt (some 21) (none) [korr 48 57 469 false, korr 65 90 469 false, korr 95 95 469 false, korr 97 122 469 false],
  mkLexSt (some 21) (none) [korr 1 9 247 false, korr 11 1114111 247 false],
  mkLexSt (some 22) (none) [],
  mkLexSt (some 22) (none) [korr 48 57 469 false, korr 65 90 469 false, korr 95 95 469 false, korr 97 122 469 false],
  mkLexSt (some 22) (none) [korr 1 9 247 false, korr 11 1114111 247 false],
  mkLexSt (some 23) (none) [],
  mkLexSt (some 23) (none) [korr 48 57 469 false, korr 65 90 469 false, korr 95 95 469 false, korr 97 122 469 false],
  mkLexSt (some 23) (none) [korr 1 9 247 false, korr 11 1114111 247 false],
  mkLexSt (some 24) (none) [],
  mkLexSt (some 24) (none) [korr 48 57 469 false, korr 65 90 469 false, korr 95 95 469 false, korr 97 122 469 false],
  mkLexSt (some 24) (none) [korr 1 9 247 false, korr 11 1114111 247 false],
  mkLexSt (some 25) (none) [],
  mkLexSt (some 25) (none) [korr 48 57 469 false, korr 65 90 469 false, korr 95 95 469 false, korr 97 122 469 false],
  mkLexSt (some 25) (none) [korr 1 9 247 false, korr 11 1114111 247 false],
  mkLexSt (some 26) (none) [],
  mkLexSt (some 26) (none) [korr 48 57 469 false, korr 65 90 469 false, korr 95 95 469 false, korr 97 122 469 false],
  mkLexSt (some 26) (none) [korr 1 9 247 false, korr 11 1114111 247 false],
  mkLexSt (some 27) (none) [],
  mkLexSt (some 27) (none) [korr 48 57 469 false, korr 65 90 469 false, korr 95 95 469 false, korr 97 122 469 false],
  mkLexSt (some 27) (none) [korr 1 9 247 false, korr 11 1114111 247 false],
  mkLexSt (some 28) (none) [],
  mkLexSt (some 28) (none) [korr 48 57 469 false, korr 65 90 469 false, korr 95 95 469 false, korr 97 122 469 false],
  mkLexSt (some 28) (none) [korr 1 9 247 false, korr 11 1114111 247 false],
  mkLexSt (some 29) (none) [],
  mkLexSt (some 29) (none) [korr 48 57 469 false, korr 65 90 469 false, korr 95 95 469 false, korr 97 122 469 false],
  mkLexSt (some 29) (none) [korr 1 9 247 false, korr 11 1114111 247 false],
  mkLexSt (some 30) (none) [],
  mkLexSt (some 30) (none) [korr 48 57 469 false, korr 65 90 469 false, korr 95 95 469 false, korr 97 122 469 false],
  mkLexSt (some 30) (none) [korr 1 9 247 false, korr 11 1114111 247 false],
  mkLexSt (some 31) (none) [],
  mkLexSt (some 31) (none) [korr 48 57 469 false, korr 65 90 469 false, korr 95 95 469 false, korr 97 122 469 false],
  mkLexSt (some 31) (none) [korr 1 9 247 false, korr 11 1114111 247 false],
  mkLexSt (some 32) (none) [],
  mkLexSt (some 32) (none) [korr 48 57 469 false, korr 65 90 469 false, korr 95 95 469 false, korr 97 122 469 false],
  mkLexSt (some 32) (none) [korr 1 9 247 false, korr 11 1114111 247 false],
  mkLexSt (some 33) (none) [],
  mkLexSt (some 33) (none) [korr 48 57 469 false, korr 65 90 469 false, korr 95 95 469 false, korr 97 122 469 false],
  mkLexSt (some 33) (none) [korr 1 9 247 false, korr 11 1114111 247 false],
  mkLexSt (some 34) (none) [],
  mkLexSt (some 34) (none) [korr 48 57 469 false, korr 65 90 469 false, korr 95 95 469 false, korr 97 122 469 false],
  mkLexSt (some 34) (none) [korr 1 9 247 false, korr 11 1114111 247 false],
  mkLexSt (some 35) (none) [],
  mkLexSt (some 35) (none) [korr 48 57 469 false, korr 65 90 469 false, korr 95 95 469 false, korr 97 122 469 false],
  mkLexSt (some 35) (none) [korr 1 9 247 false, korr 11 1114111 247 false],
  mkLexSt (some 36) (none) [],
  mkLexSt (some 36) (none) [korr 48 57 469 false, korr 65 90 469 false, korr 95 95 469 false, korr 97 122 469 false],
  mkLexSt (some 36) (none) [korr 1 9 247 false, korr 11 1114111 247 false],
  mkLexSt (some 37) (none) [],
  mkLexSt (some 38) (none) [],
  mkLexSt (some 38) (none) [korr 48 57 469 false, korr 65 90 469 false, korr 95 95 469 false, korr 97 122 469 false],
  mkLexSt (some 38) (none) [korr 1 9 247 false, korr 11 1114111 247 false],
  mkLexSt (some 39) (none) [],
  mkLexSt (some 40) (none) [],
  mkLexSt (some 40) (none) [korr 1 9 247 false, korr 11 1114111 247 false],
  mkLexSt (some 41) (none) [korr 95 95 397 false, korr 48 57 469 false, korr 65 90 469 false, korr 97 122 469 false],
  mkLexSt (some 41) (none) [korr 97 97 467 false, korr 48 57 469 false, korr 65 90 469 false, korr 95 95 469 false, korr 98 122 469 false],
  mkLexSt (some 41) (none) [korr 97 97 441 false, korr 114 114 394 false, korr 48 57 469 false, korr 65 90 469 false, korr 95 95 469 false, korr 98 122 469 false],
  mkLexSt (some 41) (none) [korr 97 97 441 false, korr 48 57 469 false, korr 65 90 469 false, korr 95 95 469 false, korr 98 122 469 false],
  mkLexSt (some 41) (none) [korr 97 97 387 false, korr 101 101 464 false, korr 114 114 351 false, korr 48 57 469 false, korr 65 90 469 false, korr 95 95 469 false, korr 98 122 469 false],
  mkLexSt (some 41) (none) [korr 97 97 365 false, korr 48 57 469 false, korr 65 90 469 false, korr 95 95 469 false, korr 98 122 469 false],
  mkLexSt (some 41) (none) [korr 97 97 363 false, korr 48 57 469 false, korr 65 90 469 false, korr 95 95 469 false, korr 98 122 469 false],
  mkLexSt (some 41) (none) [korr 97 97 413 false, korr 48 57 469 false, korr 65 90 469 false, korr 95 95 469 false, korr 98 122 469 false],
  mkLexSt (some 41) (none) [korr 97 97 406 false, korr 48 57 469 false, korr 65 90 469 false, korr 95 95 469 false, korr 98 122 469 false],
  mkLexSt (some 41) (none) [korr 97 97 452 false, korr 114 114 417 false, korr 121 121 407 false, korr 48 57 469 false, korr 65 90 469 false, korr 95 95 469 false, korr 98 122 469 false],
  mkLexSt (some 41) (none) [korr 97 97 455 false, korr 48 57 469 false, korr 65 90 469 false, korr 95 95 469 false, korr 98 122 469 false],
  mkLexSt (some 41) (none) [korr 97 97 437 false, korr 108 108 405 false, korr 48 57 469 false, korr 65 90 469 false, korr 95 95 469 false, korr 98 122 469 false],
  mkLexSt (some 41) (none) [korr 97 97 437 false, korr 48 57 469 false, korr 65 90 469 false, korr 95 95 469 false, korr 98 122 469 false],
  mkLexSt (some 41) (none) [korr 97 97 457 false, korr 48 57 469 false, korr 65 90 469 false, korr 95 95 469 false, korr 98 122 469 false],
  mkLexSt (some 41) (none) [korr 97 97 458 false, korr 48 57 469 false, korr 65 90 469 false, korr 95 95 469 false, korr 98 122 469 false],
  mkLexSt (some 41) (none) [korr 99 99 360 false, korr 110 110 392 false, korr 48 57 469 false, korr 65 90 469 false, korr 95 95 469 false, korr 97 122 469 false],
  mkLexSt (some 41) (none) [korr 99 99 371 false, korr 48 57 469 false, korr 65 90 469 false, korr 95 95 469 false, korr 97 122 469 false],
  mkLexSt (some 41) (none) [korr 99 99 352 false, korr 104 104 349 false, korr 116 116 353 false, korr 48 57 469 false, korr 65 90 469 false, korr 95 95 469 false, korr 97 122 469 false],
  mkLexSt (some 41) (none) [korr 99 99 352 false, korr 104 104 349 false, korr 116 116 431 false, korr 48 57 469 false, korr 65 90 469 false, korr 95 95 469 false, korr 97 122 469 false],
  mkLexSt (some 41) (none) [korr 99 99 399 false, korr 48 57 469 false, korr 65 90 469 false, korr 95 95 469 false, korr 97 122 469 false],
  mkLexSt (some 41) (none) [korr 99 99 443 false, korr 48 57 469 false, korr 65 90 469 false, korr 95 95 469 false, korr 97 122 469 false],
  mkLexSt (some 41) (none) [korr 100 100 418 false, korr 48 57 469 false, korr 65 90 469 false, korr 95 95 469 false, korr 97 122 469 false],
  mkLexSt (some 41) (none) [korr 100 100 451 false, korr 48 57 469 false, korr 65 90 469 false, korr 95 95 469 false, korr 97 122 469 false],
  mkLexSt (some 41) (none) [korr 101 101 414 false, korr 111 111 430 false, korr 48 57 469 false, korr 65 90 469 false, korr 95 95 469 false, korr 97 122 469 false],
  mkLexSt (some 41) (none) [korr 101 101 464 false, korr 114 114 351 false, korr 48 57 469 false, korr 65 90 469 false, korr 95 95 469 false, korr 97 122 469 false],
  mkLexSt (some 41) (none) [korr 101 101 464 false, korr 48 57 469 false, korr 65 90 469 false, korr 95 95 469 false, korr 97 122 469 false],
  mkLexSt (some 41) (none) [korr 101 101 308 false, korr 48 57 469 false, korr 65 90 469 false, korr 95 95 469 false, korr 97 122 469 false],
  mkLexSt (some 41) (none) [korr 101 101 425 false, korr 48 57 469 false, korr 65 90 469 false, korr 95 95 469 false, korr 97 122 469 false],
  mkLexSt (some 41) (none) [korr 101 101 332 false, korr 48 57 469 false, korr 65 90 469 false, korr 95 95 469 false, korr 97 122 469 false],
  mkLexSt (some 41) (none) [korr 101 101 317 false, korr 48 57 469 false, korr 65 90 469 false, korr 95 95 469 false, korr 97 122 469 false],
  mkLexSt (some 41) (none) [korr 101 101 257 false, korr 48 57 469 false, korr 65 90 469 false, korr 95 95 469 false, korr 97 122 469 false],
  mkLexSt (some 41) (none) [korr 101 101 320 false, korr 48 57 469 false, korr 65 90 469 false, korr 95 95 469 false, korr 97 122 469 false],
  mkLexSt (some 41) (none) [korr 101 101 293 false, korr 48 57 469 false, korr 65 90 469 false, korr 95 95 469 false, korr 97 122 469 false],
  mkLexSt (some 41) (none) [korr 101 101 269 false, korr 48 57 469 false, korr 65 90 469 false, korr 95 95 469 false, korr 97 122 469 false],
  mkLexSt (some 41) (none) [korr 101 101 323 false, korr 48 57 469 false, korr 65 90 469 false, korr 95 95 469 false, korr 97 122 469 false],
  mkLexSt (some 41) (none) [korr 101 101 364 false, korr 111 111 456 false, korr 48 57 469 false, korr 65 90 469 false, korr 95 95 469 false, korr 97 122 469 false],
  mkLexSt (some 41) (none) [korr 101 101 364 false, korr 48 57 469 false, korr 65 90 469 false, korr 95 95 469 false, korr 97 122 469 false],
  mkLexSt (some 41) (none) [korr 101 101 428 false, korr 48 57 469 false, korr 65 90 469 false, korr 95 95 469 false, korr 97 122 469 false],
  mkLexSt (some 41) (none) [korr 101 101 429 false, korr 48 57 469 false, korr 65 90 469 false, korr 95 95 469 false, korr 97 122 469 false],
  mkLexSt (some 41) (none) [korr 101 101 448 false, korr 48 57 469 false, korr 65 90 469 false, korr 95 95 469 false, korr 97 122 469 false],
  mkLexSt (some 41) (none) [korr 102 102 385 false, korr 112 112 350 false, korr 48 57 469 false, korr 65 90 469 false, korr 95 95 469 false, korr 97 122 469 false],
  mkLexSt (some 41) (none) [korr 102 102 439 false, korr 48 57 469 false, korr 65 90 469 false, korr 95 95 469 false, korr 97 122 469 false],
  mkLexSt (some 41) (none) [korr 103 103 305 false, korr 48 57 469 false, korr 65 90 469 false, korr 95 95 469 false, korr 97 122 469 false],
  mkLexSt (some 41) (none) [korr 103 103 254 false, korr 48 57 469 false, korr 65 90 469 false, korr 95 95 469 false, korr 97 122 469 false],
  mkLexSt (some 41) (none) [korr 103 103 391 false, korr 48 57 469 false, korr 65 90 469 false, korr 95 95 469 false, korr 97 122 469 false],
  mkLexSt (some 41) (none) [korr 104 104 272 false, korr 48 57 469 false, korr 65 90 469 false, korr 95 95 469 false, korr 97 122 469 false],
  mkLexSt (some 41) (none) [korr 104 104 284 false, korr 48 57 469 false, korr 65 90 469 false, korr 95 95 469 false, korr 97 122 469 false],
  mkLexSt (some 41) (none) [korr 104 104 446 false, korr 48 57 469 false, korr 65 90 469 false, korr 95 95 469 false, korr 97 122 469 false],
  mkLexSt (some 41) (none) [korr 105 105 409 false, korr 48 57 469 false, korr 65 90 469 false, korr 95 95 469 false, korr 97 122 469 false],
  mkLexSt (some 41) (none) [korr 105 105 404 false, korr 111 111 415 false, korr 48 57 469 false, korr 65 90 469 false, korr 95 95 469 false, korr 97 122 469 false],
  mkLexSt (some 41) (none) [korr 105 105 422 false, korr 48 57 469 false, korr 65 90 469 false, korr 95 95 469 false, korr 97 122 469 false],
  mkLexSt (some 41) (none) [korr 105 105 426 false, korr 48 57 469 false, korr 65 90 469 false, korr 95 95 469 false, korr 97 122 469 false],
  mkLexSt (some 41) (none) [korr 105 105 388 false, korr 48 57 469 false, korr 65 90 469 false, korr 95 95 469 false, korr 97 122 469 false],
  mkLexSt (some 41) (none) [korr 105 105 412 false, korr 48 57 469 false, korr 65 90 469 false, korr 95 95 469 false, korr 97 122 469 false],
  mkLexSt (some 41) (none) [korr 105 105 423 false, korr 48 57 469 false, korr 65 90 469 false, korr 95 95 469 false, korr 97 122 469 false],
  mkLexSt (some 41) (none) [korr 105 105 449 false, korr 48 57 469 false, korr 65 90 469 false, korr 95 95 469 false, korr 97 122 469 false],
  mkLexSt (some 41) (none) [korr 105 105 450 false, korr 48 57 469 false, korr 65 90 469 false, korr 95 95 469 false, korr 97 122 469 false],
  mkLexSt (some 41) (none) [korr 107 107 376 false, korr 48 57 469 false, korr 65 90 469 false, korr 95 95 469 false, korr 97 122 469 false],
  mkLexSt (some 41) (none) [korr 108 108 405 false, korr 48 57 469 false, korr 65 90 469 false, korr 95 95 469 false, korr 97 122 469 false],
  mkLexSt (some 41) (none) [korr 108 108 290 false, korr 48 57 469 false, korr 65 90 469 false, korr 95 95 469 false, korr 97 122 469 false],
  mkLexSt (some 41) (none) [korr 108 108 403 false, korr 48 57 469 false, korr 65 90 469 false, korr 95 95 469 false, korr 97 122 469 false],
  mkLexSt (some 41) (none) [korr 108 108 395 false, korr 48 57 469 false, korr 65 90 469 false, korr 95 95 469 false, korr 97 122 469 false],
  mkLexSt (some 41) (none) [korr 108 108 373 false, korr 48 57 469 false, korr 65 90 469 false, korr 95 95 469 false, korr 97 122 469 false],
  mkLexSt (some 41) (none) [korr 108 108 374 false, korr 48 57 469 false, korr 65 90 469 false, korr 95 95 469 false, korr 97 122 469 false],
  mkLexSt (some 41) (none) [korr 108 108 358 false, korr 48 57 469 false, korr 65 90 469 false, korr 95 95 469 false, korr 97 122 469 false],
  mkLexSt (some 41) (none) [korr 109 109 339 false, korr 48 57 469 false, korr 65 90 469 false, korr 95 95 469 false, korr 97 122 469 false],
  mkLexSt (some 41) (none) [korr 110 110 392 false, korr 48 57 469 false, korr 65 90 469 false, korr 95 95 469 false, korr 97 122 469 false],
  mkLexSt (some 41) (none) [korr 110 110 335 false, korr 48 57 469 false, korr 65 90 469 false, korr 95 95 469 false, korr 97 122 469 false],
  mkLexSt (some 41) (none) [korr 110 110 326 false, korr 48 57 469 false, korr 65 90 469 false, korr 95 95 469 false, korr 97 122 469 false],
  mkLexSt (some 41) (none) [korr 110 110 438 false, korr 48 57 469 false, korr 65 90 469 false, korr 95 95 469 false, korr 97 122 469 false],
  mkLexSt (some 41) (none) [korr 110 110 454 false, korr 48 57 469 false, korr 65 90 469 false, korr 95 95 469 false, korr 97 122 469 false],
  mkLexSt (some 41) (none) [korr 110 110 442 false, korr 48 57 469 false, korr 65 90 469 false, korr 95 95 469 false, korr 97 122 469 false],
  mkLexSt (some 41) (none) [korr 110 110 382 false, korr 48 57 469 false, korr 65 90 469 false, korr 95 95 469 false, korr 97 122 469 false],
  mkLexSt (some 41) (none) [korr 111 111 401 false, korr 48 57 469 false, korr 65 90 469 false, korr 95 95 469 false, korr 97 122 469 false],
  mkLexSt (some 41) (none) [korr 111 111 463 false, korr 48 57 469 false, korr 65 90 469 false, korr 95 95 469 false, korr 97 122 469 false],
  mkLexSt (some 41) (none) [korr 111 111 461 false, korr 48 57 469 false, korr 65 90 469 false, korr 95 95 469 false, korr 97 122 469 false],
  mkLexSt (some 41) (none) [korr 111 111 456 false, korr 48 57 469 false, korr 65 90 469 false, korr 95 95 469 false, korr 97 122 469 false],
  mkLexSt (some 41) (none) [korr 111 111 462 false, korr 48 57 469 false, korr 65 90 469 false, korr 95 95 469 false, korr 97 122 469 false],
  mkLexSt (some 41) (none) [korr 111 111 434 false, korr 48 57 469 false, korr 65 90 469 false, korr 95 95 469 false, korr 97 122 469 false],
  mkLexSt (some 41) (none) [korr 111 111 411 false, korr 48 57 469 false, korr 65 90 469 false, korr 95 95 469 false, korr 97 122 469 false],
  mkLexSt (some 41) (none) [korr 112 112 263 false, korr 48 57 469 false, korr 65 90 469 false, korr 95 95 469 false, korr 97 122 469 false],
  mkLexSt (some 41) (none) [korr 112 112 445 false, korr 48 57 469 false, korr 65 90 469 false, korr 95 95 469 false, korr 97 122 469 false],
  mkLexSt (some 41) (none) [korr 112 112 440 false, korr 48 57 469 false, korr 65 90 469 false, korr 95 95 469 false, korr 97 122 469 false],
  mkLexSt (some 41) (none) [korr 114 114 419 false, korr 48 57 469 false, korr 65 90 469 false, korr 95 95 469 false, korr 97 122 469 false],
  mkLexSt (some 41) (none) [korr 114 114 344 false, korr 48 57 469 false, korr 65 90 469 false, korr 95 95 469 false, korr 97 122 469 false],
  mkLexSt (some 41) (none) [korr 114 114 296 false, korr 48 57 469 false, korr 65 90 469 false, korr 95 95 469 false, korr 97 122 469 false],
  mkLexSt (some 41) (none) [korr 114 114 416 false, korr 48 57 469 false, korr 65 90 469 false, korr 95 95 469 false, korr 97 122 469 false],
  mkLexSt (some 41) (none) [korr 114 114 417 false, korr 48 57 469 false, korr 65 90 469 false, korr 95 95 469 false, korr 97 122 469 false],
  mkLexSt (some 41) (none) [korr 114 114 351 false, korr 48 57 469 false, korr 65 90 469 false, korr 95 95 469 false, korr 97 122 469 false],
  mkLexSt (some 41) (none) [korr 114 114 354 false, korr 48 57 469 false, korr 65 90 469 false, korr 95 95 469 false, korr 97 122 469 false],
  mkLexSt (some 41) (none) [korr 114 114 400 false, korr 48 57 469 false, korr 65 90 469 false, korr 95 95 469 false, korr 97 122 469 false],
  mkLexSt (some 41) (none) [korr 115 115 370 false, korr 48 57 469 false, korr 65 90 469 false, korr 95 95 469 false, korr 97 122 469 false],
  mkLexSt (some 41) (none) [korr 115 115 250 false, korr 48 57 469 false, korr 65 90 469 false, korr 95 95 469 false, korr 97 122 469 false],
  mkLexSt (some 41) (none) [korr 115 115 372 false, korr 48 57 469 false, korr 65 90 469 false, korr 95 95 469 false, korr 97 122 469 false],
  mkLexSt (some 41) (none) [korr 115 115 408 false, korr 48 57 469 false, korr 65 90 469 false, korr 95 95 469 false, korr 97 122 469 false],
  mkLexSt (some 41) (none) [korr 115 115 383 false, korr 48 57 469 false, korr 65 90 469 false, korr 95 95 469 false, korr 97 122 469 false],
  mkLexSt (some 41) (none) [korr 115 115 377 false, korr 48 57 469 false, korr 65 90 469 false, korr 95 95 469 false, korr 97 122 469 false],
  mkLexSt (some 41) (none) [korr 116 116 389 false, korr 48 57 469 false, korr 65 90 469 false, korr 95 95 469 false, korr 97 122 469 false],
  mkLexSt (some 41) (none) [korr 116 116 302 false, korr 48 57 469 false, korr 65 90 469 false, korr 95 95 469 false, korr 97 122 469 false],
  mkLexSt (some 41) (none) [korr 116 116 266 false, korr 48 57 469 false, korr 65 90 469 false, korr 95 95 469 false, korr 97 122 469 false],
  mkLexSt (some 41) (none) [korr 116 116 275 false, korr 48 57 469 false, korr 65 90 469 false, korr 95 95 469 false, korr 97 122 469 false],
  mkLexSt (some 41) (none) [korr 116 116 248 false, korr 48 57 469 false, korr 65 90 469 false, korr 95 95 469 false, korr 97 122 469 false],
  mkLexSt (some 41) (none) [korr 116 116 287 false, korr 48 57 469 false, korr 65 90 469 false, korr 95 95 469 false, korr 97 122 469 false],
  mkLexSt (some 41) (none) [korr 116 116 311 false, korr 48 57 469 false, korr 65 90 469 false, korr 95 95 469 false, korr 97 122 469 false],
  mkLexSt (some 41) (none) [korr 116 116 329 false, korr 48 57 469 false, korr 65 90 469 false, korr 95 95 469 false, korr 97 122 469 false],
  mkLexSt (some 41) (none) [korr 116 116 465 false, korr 48 57 469 false, korr 65 90 469 false, korr 95 95 469 false, korr 97 122 469 false],
  mkLexSt (some 41) (none) [korr 116 116 466 false, korr 48 57 469 false, korr 65 90 469 false, korr 95 95 469 false, korr 97 122 469 false],
  mkLexSt (some 41) (none) [korr 116 116 390 false, korr 48 57 469 false, korr 65 90 469 false, korr 95 95 469 false, korr 97 122 469 false],
  mkLexSt (some 41) (none) [korr 116 116 460 false, korr 48 57 469 false, korr 65 90 469 false, korr 95 95 469 false, korr 97 122 469 false],
  mkLexSt (some 41) (none) [korr 116 116 468 false, korr 48 57 469 false, korr 65 90 469 false, korr 95 95 469 false, korr 97 122 469 false],
  mkLexSt (some 41) (none) [korr 116 116 381 false, korr 48 57 469 false, korr 65 90 469 false, korr 95 95 469 false, korr 97 122 469 false],
  mkLexSt (some 41) (none) [korr 116 116 398 false, korr 48 57 469 false, korr 65 90 469 false, korr 95 95 469 false, korr 97 122 469 false],
  mkLexSt (some 41) (none) [korr 116 116 357 false, korr 48 57 469 false, korr 65 90 469 false, korr 95 95 469 false, korr 97 122 469 false],
  mkLexSt (some 41) (none) [korr 116 116 375 false, korr 48 57 469 false, korr 65 90 469 false, korr 95 95 469 false, korr 97 122 469 false],
  mkLexSt (some 41) (none) [korr 116 116 378 false, korr 48 57 469 false, korr 65 90 469 false, korr 95 95 469 false, korr 97 122 469 false],
  mkLexSt (some 41) (none) [korr 117 117 433 false, korr 48 57 469 false, korr 65 90 469 false, korr 95 95 469 false, korr 97 122 469 false],
  mkLexSt (some 41) (none) [korr 117 117 436 false, korr 48 57 469 false, korr 65 90 469 false, korr 95 95 469 false, korr 97 122 469 false],
  mkLexSt (some 41) (none) [korr 117 117 424 false, korr 48 57 469 false, korr 65 90 469 false, korr 95 95 469 false, korr 97 122 469 false],
  mkLexSt (some 41) (none) [korr 117 117 447 false, korr 48 57 469 false, korr 65 90 469 false, korr 95 95 469 false, korr 97 122 469 false],
  mkLexSt (some 41) (none) [korr 119 119 314 false, korr 48 57 469 false, korr 65 90 469 false, korr 95 95 469 false, korr 97 122 469 false],
  mkLexSt (some 41) (none) [korr 120 120 444 false, korr 48 57 469 false, korr 65 90 469 false, korr 95 95 469 false, korr 97 122 469 false],
  mkLexSt (some 41) (none) [korr 121 121 299 false, korr 48 57 469 false, korr 65 90 469 false, korr 95 95 469 false, korr 97 122 469 false],
  mkLexSt (some 41) (none) [korr 121 121 252 false, korr 48 57 469 false, korr 65 90 469 false, korr 95 95 469 false, korr 97 122 469 false],
  mkLexSt (some 41) (none) [korr 121 121 421 false, korr 48 57 469 false, korr 65 90 469 false, korr 95 95 469 false, korr 97 122 469 false],
  mkLexSt (some 41) (none) [korr 121 121 407 false, korr 48 57 469 false, korr 65 90 469 false, korr 95 95 469 false, korr 97 122 469 false],
  mkLexSt (some 41) (none) [korr 48 57 469 false, korr 65 90 469 false, korr 95 95 469 false, korr 97 122 469 false],
  mkLexSt (some 42) (none) [],
  mkLexSt (some 42) (none) [korr 46 46 111 false, korr 109 109 83 false, korr 48 57 471 false],
  mkLexSt (some 42) (none) [korr 109 109 83 false, korr 48 57 472 false],
  mkLexSt (some 43) (none) [],
  mkLexSt (some 43) (none) [korr 48 57 473 false, korr 65 70 473 false, korr 97 102 473 false],
  mkLexSt (some 43) (none) [korr 48 57 474 false, korr 65 70 474 false, korr 97 102 474 false],
  mkLexSt (some 43) (none) [korr 48 57 475 false, korr 65 70 475 false, korr 97 102 475 false],
  mkLexSt (some 43) (none) [korr 48 57 476 false, korr 65 70 476 false, korr 97 102 476 false],
  mkLexSt (some 43) (none) [korr 48 57 477 false, korr 65 70 477 false, korr 97 102 477 false],
  mkLexSt (some 44) (none) [],
  mkLexSt (some 44) (none) [korr 1 9 247 false, korr 11 1114111 247 false],
  mkLexSt (some 45) (none) [korr 10 10 484 false, korr 1 33 481 false, korr 35 1114111 481 false],
  mkLexSt (some 45) (none) [korr 35 35 483 false, korr 9 13 482 false, korr 32 32 482 false, korr 1 33 484 false, korr 36 1114111 484 false],
  mkLexSt (some 45) (none) [korr 10 10 484 false, korr 35 35 484 false, korr 1 33 481 false, korr 36 1114111 481 false],
  mkLexSt (some 45) (none) [korr 1 33 484 false, korr 35 1114111 484 false]]

def lexModes : List Nat := [0, 116, 3, 3, 1, 116, 116, 116, 116, 116, 116, 116, 116, 116, 3, 3, 3, 3, 116, 4, 116, 116, 116, 116, 116, 116, 116, 116, 116, 116, 4, 116, 116, 116, 4, 4, 4, 4, 116, 116, 116, 116, 116, 115, 115, 114, 116, 116, 115, 115, 115, 115, 5, 5, 5, 116, 116, 5, 5, 5, 116, 116, 116, 2, 116, 116, 116, 116, 116, 116, 8, 116, 116, 116, 8, 8, 116, 116, 116, 116, 116, 8, 116, 482, 116, 8, 116, 8, 8, 116, 482, 116, 482, 482]

def parseTbl : List (List Pent) := [
  [korp 0 1, korp 1 3, korp 2 1, korp 3 1, korp 5 1, korp 6 1, korp 7 1, korp 8 1, korp 9 1, korp 10 1, korp 11 1, korp 12 1, korp 13 1, korp 14 1, korp 15 1, korp 16 1, korp 17 1, korp 18 1, korp 19 1, korp 20 1, korp 21 1, korp 22 1, korp 23 1, korp 24 1, korp 25 1, korp 26 1, korp 27 1, korp 28 1, korp 29 1, korp 30 1, korp 31 1, korp 32 1, korp 33 1, korp 34 1, korp 35 1, korp 36 1, korp 37 1, korp 38 1, korp 39 1, korp 40 1, korp 41 1, korp 42 1, korp 43 1, korp 44 1],
  [korp 0 5, korp 1 7, korp 2 9, korp 9 11, korp 12 13, korp 13 13, korp 14 13, korp 15 13, korp 16 13, korp 40 15, korp 46 68, korp 47 47, korp 50 47, korp 51 47, korp 52 60, korp 60 47, korp 61 72, korp 63 47],
  [korp 1 3, korp 2 17, korp 11 17, korp 12 19, korp 13 19, korp 14 19, korp 15 19, korp 16 19, korp 17 19, korp 18 19, korp 19 19, korp 20 19, korp 21 19, korp 22 19, korp 23 19, korp 24 19, korp 25 19, korp 26 19, korp 27 19, korp 28 19, korp 29 19, korp 30 19, korp 31 19, korp 32 19, korp 33 19, korp 34 19, korp 35 19, korp 36 19, korp 38 19, korp 40 21, korp 41 23, korp 42 25, korp 43 25, korp 44 27, korp 56 3, korp 57 3, korp 61 3, korp 62 3, korp 66 3],
  [korp 1 3, korp 2 29, korp 11 29, korp 12 31, korp 13 31, korp 14 31, korp 15 31, korp 16 31, korp 17 31, korp 18 31, korp 19 31, korp 20 31, korp 21 31, korp 22 31, korp 23 31, korp 24 31, korp 25 31, korp 26 31, korp 27 31, korp 28 31, korp 29 31, korp 30 31, korp 31 31, korp 32 31, korp 33 31, korp 34 31, korp 35 31, korp 36 31, korp 38 31, korp 40 33, korp 41 36, korp 42 39, korp 43 39, korp 44 42, korp 56 3, korp 57 3, korp 61 3, korp 62 3, korp 66 3],
  [korp 1 3, korp 2 45, korp 4 47, korp 5 49, korp 6 49, korp 7 49, korp 8 49, korp 11 45, korp 12 45, korp 13 45, korp 14 45, korp 15 45, korp 16 45, korp 17 45, korp 18 45, korp 19 45, korp 20 45, korp 21 45, korp 22 45, korp 23 45, korp 24 45, korp 25 45, korp 26 45, korp 27 45, korp 28 45, korp 29 45, korp 30 45, korp 31 45, korp 32 45, korp 33 45, korp 34 45, korp 35 45, korp 36 45, korp 38 45, korp 44 51, korp 48 25, korp 49 86, korp 62 25],
  [korp 1 7, korp 2 53, korp 11 55, korp 12 13, korp 13 13, korp 14 13, korp 15 13, korp 16 13, korp 17 57, korp 18 57, korp 19 59, korp 20 59, korp 21 59, korp 22 59, korp 23 59, korp 24 59, korp 25 59, korp 26 59, korp 27 59, korp 28 59, korp 29 59, korp 30 59, korp 31 59, korp 32 59, korp 33 59, korp 34 59, korp 35 59, korp 36 59, korp 38 61, korp 47 31, korp 51 31, korp 52 60, korp 53 12, korp 54 31, korp 55 77, korp 58 31, korp 65 12],
  [korp 1 7, korp 2 63, korp 11 66, korp 12 68, korp 13 68, korp 14 68, korp 15 68, korp 16 68, korp 17 71, korp 18 71, korp 19 74, korp 20 74, korp 21 74, korp 22 74, korp 23 74, korp 24 74, korp 25 74, korp 26 74, korp 27 74, korp 28 74, korp 29 74, korp 30 74, korp 31 74, korp 32 74, korp 33 74, korp 34 74, korp 35 74, korp 36 74, korp 38 77, korp 47 31, korp 51 31, korp 52 60, korp 53 6, korp 54 31, korp 55 77, korp 58 31, korp 65 6],
  [korp 1 7, korp 2 53, korp 11 80, korp 12 13, korp 13 13, korp 14 13, korp 15 13, korp 16 13, korp 17 57, korp 18 57, korp 19 59, korp 20 59, korp 21 59, korp 22 59, korp 23 59, korp 24 59, korp 25 59, korp 26 59, korp 27 59, korp 28 59, korp 29 59, korp 30 59, korp 31 59, korp 32 59, korp 33 59, korp 34 59, korp 35 59, korp 36 59, korp 38 61, korp 47 31, korp 51 31, korp 52 60, korp 53 6, korp 54 31, korp 55 77, korp 58 31, korp 65 6],
  [korp 1 7, korp 2 53, korp 11 82, korp 12 13, korp 13 13, korp 14 13, korp 15 13, korp 16 13, korp 17 57, korp 18 57, korp 19 59, korp 20 59, korp 21 59, korp 22 59, korp 23 59, korp 24 59, korp 25 59, korp 26 59, korp 27 59, korp 28 59, korp 29 59, korp 30 59, korp 31 59, korp 32 59, korp 33 59, korp 34 59, korp 35 59, korp 36 59, korp 38 61, korp 47 31, korp 51 31, korp 52 60, korp 53 13, korp 54 31, korp 55 77, korp 58 31, korp 65 13],
  [korp 1 7, korp 2 53, korp 11 84, korp 12 13, korp 13 13, korp 14 13, korp 15 13, korp 16 13, korp 17 57, korp 18 57, korp 19 59, korp 20 59, korp 21 59, korp 22 59, korp 23 59, korp 24 59, korp 25 59, korp 26 59, korp 27 59, korp 28 59, korp 29 59, korp 30 59, korp 31 59, korp 32 59, korp 33 59, korp 34 59, korp 35 59, korp 36 59, korp 38 61, korp 47 31, korp 51 31, korp 52 60, korp 53 7, korp 54 31, korp 55 77, korp 58 31, korp 65 7],
  [korp 1 7, korp 2 53, korp 11 86, korp 12 13, korp 13 13, korp 14 13, korp 15 13, korp 16 13, korp 17 57, korp 18 57, korp 19 59, korp 20 59, korp 21 59, korp 22 59, korp 23 59, korp 24 59, korp 25 59, korp 26 59, korp 27 59, korp 28 59, korp 29 59, korp 30 59, korp 31 59, korp 32 59, korp 33 59, korp 34 59, korp 35 59, korp 36 59, korp 38 61, korp 47 31, korp 51 31, korp 52 60, korp 53 6, korp 54 31, korp 55 77, korp 58 31, korp 65 6],
  [korp 1 7, korp 2 53, korp 11 88, korp 12 13, korp 13 13, korp 14 13, korp 15 13, korp 16 13, korp 17 57, korp 18 57, korp 19 59, korp 20 59, korp 21 59, korp 22 59, korp 23 59, korp 24 59, korp 25 59, korp 26 59, korp 27 59, korp 28 59, korp 29 59, korp 30 59, korp 31 59, korp 32 59, korp 33 59, korp 34 59, korp 35 59, korp 36 59, korp 38 61, korp 47 31, korp 51 31, korp 52 60, korp 53 10, korp 54 31, korp 55 77, korp 58 31, korp 65 10],
  [korp 1 7, korp 2 53, korp 11 90, korp 12 13, korp 13 13, korp 14 13, korp 15 13, korp 16 13, korp 17 57, korp 18 57, korp 19 59, korp 20 59, korp 21 59, korp 22 59, korp 23 59, korp 24 59, korp 25 59, korp 26 59, korp 27 59, korp 28 59, korp 29 59, korp 30 59, korp 31 59, korp 32 59, korp 33 59, korp 34 59, korp 35 59, korp 36 59, korp 38 61, korp 47 31, korp 51 31, korp 52 60, korp 53 6, korp 54 31, korp 55 77, korp 58 31, korp 65 6],
  [korp 1 7, korp 2 53, korp 11 92, korp 12 13, korp 13 13, korp 14 13, korp 15 13, korp 16 13, korp 17 57, korp 18 57, korp 19 59, korp 20 59, korp 21 59, korp 22 59, korp 23 59, korp 24 59, korp 25 59, korp 26 59, korp 27 59, korp 28 59, korp 29 59, korp 30 59, korp 31 59, korp 32 59, korp 33 59, korp 34 59, korp 35 59, korp 36 59, korp 38 61, korp 47 31, korp 51 31, korp 52 60, korp 53 6, korp 54 31, korp 55 77, korp 58 31, korp 65 6],
  [korp 1 3, korp 2 94, korp 11 94, korp 12 96, korp 13 96, korp 14 96, korp 15 96, korp 16 96, korp 17 96, korp 18 96, korp 19 96, korp 20 96, korp 21 96, korp 22 96, korp 23 96, korp 24 96, korp 25 96, korp 26 96, korp 27 96, korp 28 96, korp 29 96, korp 30 96, korp 31 96, korp 32 96, korp 33 96, korp 34 96, korp 35 96, korp 36 96, korp 37 98, korp 38 96, korp 40 94, korp 41 96, korp 42 94, korp 43 94, korp 44 94],
  [korp 1 3, korp 2 100, korp 11 100, korp 12 102, korp 13 102, korp 14 102, korp 15 102, korp 16 102, korp 17 102, korp 18 102, korp 19 102, korp 20 102, korp 21 102, korp 22 102, korp 23 102, korp 24 102, korp 25 102, korp 26 102, korp 27 102, korp 28 102, korp 29 102, korp 30 102, korp 31 102, korp 32 102, korp 33 102, korp 34 102, korp 35 102, korp 36 102, korp 38 102, korp 40 100, korp 41 102, korp 42 100, korp 43 100, korp 44 100],
  [korp 1 3, korp 2 104, korp 11 104, korp 12 106, korp 13 106, korp 14 106, korp 15 106, korp 16 106, korp 17 106, korp 18 106, korp 19 106, korp 20 106, korp 21 106, korp 22 106, korp 23 106, korp 24 106, korp 25 106, korp 26 106, korp 27 106, korp 28 106, korp 29 106, korp 30 106, korp 31 106, korp 32 106, korp 33 106, korp 34 106, korp 35 106, korp 36 106, korp 38 106, korp 40 104, korp 41 106, korp 42 104, korp 43 104, korp 44 104],
  [korp 1 3, korp 2 108, korp 11 108, korp 12 110, korp 13 110, korp 14 110, korp 15 110, korp 16 110, korp 17 110, korp 18 110, korp 19 110, korp 20 110, korp 21 110, korp 22 110, korp 23 110, korp 24 110, korp 25 110, korp 26 110, korp 27 110, korp 28 110, korp 29 110, korp 30 110, korp 31 110, korp 32 110, korp 33 110, korp 34 110, korp 35 110, korp 36 110, korp 38 110, korp 40 108, korp 41 110, korp 42 108, korp 43 108, korp 44 108],
  [korp 0 100, korp 1 7, korp 2 100, korp 9 100, korp 10 100, korp 11 100, korp 12 100, korp 13 100, korp 14 100, korp 15 100, korp 16 100, korp 17 102, korp 18 102, korp 19 100, korp 20 100, korp 21 100, korp 22 100, korp 23 100, korp 24 100, korp 25 100, korp 26 100, korp 27 100, korp 28 100, korp 29 100, korp 30 100, korp 31 100, korp 32 100, korp 33 100, korp 34 100, korp 35 100, korp 36 100, korp 38 100, korp 40 100],
  [korp 1 3, korp 11 29, korp 17 31, korp 18 31, korp 19 31, korp 20 31, korp 21 31, korp 22 31, korp 23 31, korp 24 31, korp 25 31, korp 26 31, korp 27 31, korp 28 31, korp 29 31, korp 30 31, korp 31 31, korp 32 31, korp 33 31, korp 34 31, korp 35 31, korp 36 31, korp 40 112, korp 41 115, korp 42 118, korp 43 118, korp 44 121, korp 56 19, korp 57 19, korp 61 19, korp 62 19, korp 66 19],
  [korp 0 124, korp 1 7, korp 2 124, korp 9 124, korp 11 124, korp 12 124, korp 13 124, korp 14 124, korp 15 124, korp 16 124, korp 17 126, korp 18 126, korp 19 124, korp 20 124, korp 21 124, korp 22 124, korp 23 124, korp 24 124, korp 25 124, korp 26 124, korp 27 124, korp 28 124, korp 29 124, korp 30 124, korp 31 124, korp 32 124, korp 33 124, korp 34 124, korp 35 124, korp 36 124, korp 38 124, korp 40 124],
  [korp 0 128, korp 1 7, korp 2 128, korp 9 128, korp 11 128, korp 12 128, korp 13 128, korp 14 128, korp 15 128, korp 16 128, korp 17 130, korp 18 130, korp 19 128, korp 20 128, korp 21 128, korp 22 128, korp 23 128, korp 24 128, korp 25 128, korp 26 128, korp 27 128, korp 28 128, korp 29 128, korp 30 128, korp 31 128, korp 32 128, korp 33 128, korp 34 128, korp 35 128, korp 36 128, korp 38 128, korp 40 128],
  [korp 0 132, korp 1 7, korp 2 132, korp 9 132, korp 11 132, korp 12 132, korp 13 132, korp 14 132, korp 15 132, korp 16 132, korp 17 134, korp 18 134, korp 19 132, korp 20 132, korp 21 132, korp 22 132, korp 23 132, korp 24 132, korp 25 132, korp 26 132, korp 27 132, korp 28 132, korp 29 132, korp 30 132, korp 31 132, korp 32 132, korp 33 132, korp 34 132, korp 35 132, korp 36 132, korp 38 132, korp 40 132],
  [korp 0 136, korp 1 7, korp 2 136, korp 9 136, korp 11 136, korp 12 136, korp 13 136, korp 14 136, korp 15 136, korp 16 136, korp 17 138, korp 18 138, korp 19 136, korp 20 136, korp 21 136, korp 22 136, korp 23 136, korp 24 136, korp 25 136, korp 26 136, korp 27 136, korp 28 136, korp 29 136, korp 30 136, korp 31 136, korp 32 136, korp 33 136, korp 34 136, korp 35 136, korp 36 136, korp 38 136, korp 40 136],
  [korp 0 140, korp 1 7, korp 2 140, korp 9 140, korp 11 140, korp 12 140, korp 13 140, korp 14 140, korp 15 140, korp 16 140, korp 17 142, korp 18 142, korp 19 140, korp 20 140, korp 21 140, korp 22 140, korp 23 140, korp 24 140, korp 25 140, korp 26 140, korp 27 140, korp 28 140, korp 29 140, korp 30 140, korp 31 140, korp 32 140, korp 33 140, korp 34 140, korp 35 140, korp 36 140, korp 38 140, korp 40 140],
  [korp 0 144, korp 1 7, korp 2 144, korp 9 144, korp 11 144, korp 12 144, korp 13 144, korp 14 144, korp 15 144, korp 16 144, korp 17 146, korp 18 146, korp 19 144, korp 20 144, korp 21 144, korp 22 144, korp 23 144, korp 24 144, korp 25 144, korp 26 144, korp 27 144, korp 28 144, korp 29 144, korp 30 144, korp 31 144, korp 32 144, korp 33 144, korp 34 144, korp 35 144, korp 36 144, korp 38 144, korp 40 144],
  [korp 0 148, korp 1 7, korp 2 148, korp 9 148, korp 11 148, korp 12 148, korp 13 148, korp 14 148, korp 15 148, korp 16 148, korp 17 150, korp 18 150, korp 19 148, korp 20 148, korp 21 148, korp 22 148, korp 23 148, korp 24 148, korp 25 148, korp 26 148, korp 27 148, korp 28 148, korp 29 148, korp 30 148, korp 31 148, korp 32 148, korp 33 148, korp 34 148, korp 35 148, korp 36 148, korp 38 148, korp 40 148],
  [korp 0 152, korp 1 7, korp 2 152, korp 9 152, korp 11 152, korp 12 152, korp 13 152, korp 14 152, korp 15 152, korp 16 152, korp 17 154, korp 18 154, korp 19 152, korp 20 152, korp 21 152, korp 22 152, korp 23 152, korp 24 152, korp 25 152, korp 26 152, korp 27 152, korp 28 152, korp 29 152, korp 30 152, korp 31 152, korp 32 152, korp 33 152, korp 34 152, korp 35 152, korp 36 152, korp 38 152, korp 40 152],
  [korp 0 156, korp 1 7, korp 2 156, korp 9 156, korp 11 156, korp 12 156, korp 13 156, korp 14 156, korp 15 156, korp 16 156, korp 17 158, korp 18 158, korp 19 156, korp 20 156, korp 21 156, korp 22 156, korp 23 156, korp 24 156, korp 25 156, korp 26 156, korp 27 156, korp 28 156, korp 29 156, korp 30 156, korp 31 156, korp 32 156, korp 33 156, korp 34 156, korp 35 156, korp 36 156, korp 38 156, korp 40 156],
  [korp 0 160, korp 1 7, korp 2 160, korp 9 160, korp 11 160, korp 12 160, korp 13 160, korp 14 160, korp 15 160, korp 16 160, korp 17 162, korp 18 162, korp 19 160, korp 20 160, korp 21 160, korp 22 160, korp 23 160, korp 24 160, korp 25 160, korp 26 160, korp 27 160, korp 28 160, korp 29 160, korp 30 160, korp 31 160, korp 32 160, korp 33 160, korp 34 160, korp 35 160, korp 36 160, korp 38 160, korp 40 160],
  [korp 1 3, korp 11 17, korp 17 19, korp 18 19, korp 19 19, korp 20 19, korp 21 19, korp 22 19, korp 23 19, korp 24 19, korp 25 19, korp 26 19, korp 27 19, korp 28 19, korp 29 19, korp 30 19, korp 31 19, korp 32 19, korp 33 19, korp 34 19, korp 35 19, korp 36 19, korp 40 164, korp 41 166, korp 42 168, korp 43 168, korp 44 170, korp 56 19, korp 57 19, korp 61 19, korp 62 19, korp 66 19],
  [korp 1 7, korp 2 172, korp 11 172, korp 12 172, korp 13 172, korp 14 172, korp 15 172, korp 16 172, korp 17 174, korp 18 174, korp 19 172, korp 20 172, korp 21 172, korp 22 172, korp 23 172, korp 24 172, korp 25 172, korp 26 172, korp 27 172, korp 28 172, korp 29 172, korp 30 172, korp 31 172, korp 32 172, korp 33 172, korp 34 172, korp 35 172, korp 36 172, korp 38 172],
  [korp 1 7, korp 2 176, korp 11 176, korp 12 176, korp 13 176, korp 14 176, korp 15 176, korp 16 176, korp 17 178, korp 18 178, korp 19 176, korp 20 176, korp 21 176, korp 22 176, korp 23 176, korp 24 176, korp 25 176, korp 26 176, korp 27 176, korp 28 176, korp 29 176, korp 30 176, korp 31 176, korp 32 176, korp 33 176, korp 34 176, korp 35 176, korp 36 176, korp 38 176],
  [korp 1 7, korp 2 180, korp 11 180, korp 12 180, korp 13 180, korp 14 180, korp 15 180, korp 16 180, korp 17 182, korp 18 182, korp 19 180, korp 20 180, korp 21 180, korp 22 180, korp 23 180, korp 24 180, korp 25 180, korp 26 180, korp 27 180, korp 28 180, korp 29 180, korp 30 180, korp 31 180, korp 32 180, korp 33 180, korp 34 180, korp 35 180, korp 36 180, korp 38 180],
  [korp 1 3, korp 11 94, korp 17 96, korp 18 96, korp 19 96, korp 20 96, korp 21 96, korp 22 96, korp 23 96, korp 24 96, korp 25 96, korp 26 96, korp 27 96, korp 28 96, korp 29 96, korp 30 96, korp 31 96, korp 32 96, korp 33 96, korp 34 96, korp 35 96, korp 36 96, korp 37 184, korp 40 94, korp 41 96, korp 42 94, korp 43 94, korp 44 94],
  [korp 1 3, korp 11 100, korp 17 102, korp 18 102, korp 19 102, korp 20 102, korp 21 102, korp 22 102, korp 23 102, korp 24 102, korp 25 102, korp 26 102, korp 27 102, korp 28 102, korp 29 102, korp 30 102, korp 31 102, korp 32 102, korp 33 102, korp 34 102, korp 35 102, korp 36 102, korp 40 100, korp 41 102, korp 42 100, korp 43 100, korp 44 100],
  [korp 1 3, korp 11 104, korp 17 106, korp 18 106, korp 19 106, korp 20 106, korp 21 106, korp 22 106, korp 23 106, korp 24 106, korp 25 106, korp 26 106, korp 27 106, korp 28 106, korp 29 106, korp 30 106, korp 31 106, korp 32 106, korp 33 106, korp 34 106, korp 35 106, korp 36 106, korp 40 104, korp 41 106, korp 42 104, korp 43 104, korp 44 104],
  [korp 1 3, korp 11 108, korp 17 110, korp 18 110, korp 19 110, korp 20 110, korp 21 110, korp 22 110, korp 23 110, korp 24 110, korp 25 110, korp 26 110, korp 27 110, korp 28 110, korp 29 110, korp 30 110, korp 31 110, korp 32 110, korp 33 110, korp 34 110, korp 35 110, korp 36 110, korp 40 108, korp 41 110, korp 42 108, korp 43 108, korp 44 108],
  [korp 1 7, korp 11 186, korp 17 57, korp 18 57, korp 19 59, korp 20 59, korp 21 59, korp 22 59, korp 23 59, korp 24 59, korp 25 59, korp 26 59, korp 27 59, korp 28 59, korp 29 59, korp 30 59, korp 31 59, korp 32 59, korp 33 59, korp 34 59, korp 35 59, korp 36 59, korp 54 42, korp 55 91, korp 64 42],
  [korp 1 7, korp 11 188, korp 17 57, korp 18 57, korp 19 59, korp 20 59, korp 21 59, korp 22 59, korp 23 59, korp 24 59, korp 25 59, korp 26 59, korp 27 59, korp 28 59, korp 29 59, korp 30 59, korp 31 59, korp 32 59, korp 33 59, korp 34 59, korp 35 59, korp 36 59, korp 54 40, korp 55 91, korp 64 40],
  [korp 1 7, korp 11 190, korp 17 192, korp 18 192, korp 19 195, korp 20 195, korp 21 195, korp 22 195, korp 23 195, korp 24 195, korp 25 195, korp 26 195, korp 27 195, korp 28 195, korp 29 195, korp 30 195, korp 31 195, korp 32 195, korp 33 195, korp 34 195, korp 35 195, korp 36 195, korp 54 40, korp 55 91, korp 64 40],
  [korp 1 7, korp 11 198, korp 17 57, korp 18 57, korp 19 59, korp 20 59, korp 21 59, korp 22 59, korp 23 59, korp 24 59, korp 25 59, korp 26 59, korp 27 59, korp 28 59, korp 29 59, korp 30 59, korp 31 59, korp 32 59, korp 33 59, korp 34 59, korp 35 59, korp 36 59, korp 54 39, korp 55 91, korp 64 39],
  [korp 1 7, korp 11 200, korp 17 57, korp 18 57, korp 19 59, korp 20 59, korp 21 59, korp 22 59, korp 23 59, korp 24 59, korp 25 59, korp 26 59, korp 27 59, korp 28 59, korp 29 59, korp 30 59, korp 31 59, korp 32 59, korp 33 59, korp 34 59, korp 35 59, korp 36 59, korp 54 40, korp 55 91, korp 64 40],
  [korp 0 202, korp 1 3, korp 2 202, korp 9 204, korp 12 204, korp 13 204, korp 14 204, korp 15 204, korp 16 204, korp 40 206, korp 41 208, korp 42 210, korp 43 210, korp 44 212, korp 56 44, korp 57 44, korp 61 44, korp 62 44, korp 66 44],
  [korp 0 29, korp 1 3, korp 2 29, korp 9 31, korp 12 31, korp 13 31, korp 14 31, korp 15 31, korp 16 31, korp 40 214, korp 41 217, korp 42 220, korp 43 220, korp 44 223, korp 56 44, korp 57 44, korp 61 44, korp 62 44, korp 66 44],
  [korp 0 226, korp 1 3, korp 2 45, korp 4 47, korp 5 49, korp 6 49, korp 7 49, korp 8 49, korp 9 45, korp 12 45, korp 13 45, korp 14 45, korp 15 45, korp 16 45, korp 40 45, korp 44 51, korp 48 25, korp 49 86, korp 62 25],
  [korp 0 228, korp 1 7, korp 2 230, korp 9 233, korp 12 236, korp 13 236, korp 14 236, korp 15 236, korp 16 236, korp 40 239, korp 47 46, korp 50 46, korp 51 46, korp 52 60, korp 60 46, korp 61 72, korp 63 46],
  [korp 0 242, korp 1 7, korp 2 9, korp 9 11, korp 12 13, korp 13 13, korp 14 13, korp 15 13, korp 16 13, korp 40 15, korp 47 46, korp 50 46, korp 51 46, korp 52 60, korp 60 46, korp 61 72, korp 63 46],
  [korp 0 94, korp 1 3, korp 2 94, korp 9 96, korp 12 96, korp 13 96, korp 14 96, korp 15 96, korp 16 96, korp 37 244, korp 40 94, korp 41 96, korp 42 94, korp 43 94, korp 44 94],
  [korp 0 104, korp 1 3, korp 2 104, korp 9 106, korp 12 106, korp 13 106, korp 14 106, korp 15 106, korp 16 106, korp 40 104, korp 41 106, korp 42 104, korp 43 104, korp 44 104],
  [korp 0 108, korp 1 3, korp 2 108, korp 9 110, korp 12 110, korp 13 110, korp 14 110, korp 15 110, korp 16 110, korp 40 108, korp 41 110, korp 42 108, korp 43 108, korp 44 108],
  [korp 0 100, korp 1 3, korp 2 100, korp 9 102, korp 12 102, korp 13 102, korp 14 102, korp 15 102, korp 16 102, korp 40 100, korp 41 102, korp 42 100, korp 43 100, korp 44 100],
  [korp 1 3, korp 40 206, korp 41 246, korp 42 248, korp 43 248, korp 44 212, korp 56 43, korp 57 43, korp 61 43, korp 62 43, korp 66 43],
  [korp 1 3, korp 40 21, korp 41 250, korp 42 252, korp 43 252, korp 44 27, korp 56 2, korp 57 2, korp 61 2, korp 62 2, korp 66 2],
  [korp 1 3, korp 40 164, korp 41 254, korp 42 256, korp 43 256, korp 44 170, korp 56 30, korp 57 30, korp 61 30, korp 62 30, korp 66 30],
  [korp 0 258, korp 1 7, korp 2 258, korp 9 258, korp 12 258, korp 13 258, korp 14 258, korp 15 258, korp 16 258, korp 40 258],
  [korp 0 260, korp 1 7, korp 2 260, korp 9 260, korp 12 260, korp 13 260, korp 14 260, korp 15 260, korp 16 260, korp 40 260],
  [korp 1 3, korp 41 262, korp 42 262, korp 43 262, korp 44 212, korp 62 50],
  [korp 1 3, korp 41 264, korp 42 264, korp 43 264, korp 44 170, korp 62 37],
  [korp 1 3, korp 41 266, korp 42 266, korp 43 266, korp 44 27, korp 62 17],
  [korp 1 7, korp 10 268, korp 40 15, korp 44 270, korp 61 62, korp 62 78],
  [korp 1 7, korp 10 104, korp 39 104, korp 44 104],
  [korp 1 7, korp 10 272, korp 44 270, korp 62 80],
  [korp 1 3, korp 4 274, korp 44 51, korp 62 27],
  [korp 1 7, korp 10 276, korp 40 276, korp 44 276],
  [korp 1 7, korp 3 278, korp 59 71],
  [korp 1 7, korp 44 280],
  [korp 1 7, korp 10 282],
  [korp 0 284, korp 1 7],
  [korp 1 7, korp 44 286],
  [korp 1 7, korp 41 288],
  [korp 1 7, korp 10 290],
  [korp 1 7, korp 39 292],
  [korp 1 7, korp 3 294],
  [korp 1 7, korp 41 296],
  [korp 1 7, korp 41 298],
  [korp 1 7, korp 10 300],
  [korp 1 7, korp 3 302],
  [korp 1 7, korp 10 304],
  [korp 1 7, korp 3 306],
  [korp 1 7, korp 10 308],
  [korp 1 7, korp 41 310],
  [korp 1 7, korp 44 312],
  [korp 1 3, korp 45 314],
  [korp 1 7, korp 3 316],
  [korp 1 7, korp 41 318],
  [korp 1 7, korp 3 320],
  [korp 1 7, korp 41 322],
  [korp 1 7, korp 41 324],
  [korp 1 7, korp 44 326],
  [korp 1 3, korp 45 328],
  [korp 1 7, korp 3 330],
  [korp 1 3, korp 45 332],
  [korp 1 3, korp 45 334]]

def parseActs : List (Nat × List PAct) := [(0, []),
  (1, [PAct.recover]),
  (3, [PAct.shiftExtra]),
  (5, [PAct.reduce 46 0 0]),
  (7, [PAct.shiftExtra]),
  (9, [PAct.shift 45]),
  (11, [PAct.shift 75]),
  (13, [PAct.shift 64]),
  (15, [PAct.shift 74]),
  (17, [PAct.reduce 54 3 6]),
  (19, [PAct.reduce 54 3 6]),
  (21, [PAct.shift 81]),
  (23, [PAct.shift 14]),
  (25, [PAct.shift 3]),
  (27, [PAct.shift 90]),
  (29, [PAct.reduce 66 2 0]),
  (31, [PAct.reduce 66 2 0]),
  (33, [PAct.reduce 66 2 0, PAct.shiftRepeat 81]),
  (36, [PAct.reduce 66 2 0, PAct.shiftRepeat 14]),
  (39, [PAct.reduce 66 2 0, PAct.shiftRepeat 3]),
  (42, [PAct.reduce 66 2 0, PAct.shiftRepeat 90]),
  (45, [PAct.reduce 47 1 0]),
  (47, [PAct.shift 25]),
  (49, [PAct.shift 79]),
  (51, [PAct.shift 83]),
  (53, [PAct.shift 4]),
  (55, [PAct.shift 24]),
  (57, [PAct.shift 73]),
  (59, [PAct.shift 73]),
  (61, [PAct.shift 65]),
  (63, [PAct.reduce 65 2 0, PAct.shiftRepeat 4]),
  (66, [PAct.reduce 65 2 0]),
  (68, [PAct.reduce 65 2 0, PAct.shiftRepeat 64]),
  (71, [PAct.reduce 65 2 0, PAct.shiftRepeat 73]),
  (74, [PAct.reduce 65 2 0, PAct.shiftRepeat 73]),
  (77, [PAct.reduce 65 2 0, PAct.shiftRepeat 65]),
  (80, [PAct.shift 26]),
  (82, [PAct.shift 23]),
  (84, [PAct.shift 21]),
  (86, [PAct.shift 20]),
  (88, [PAct.shift 22]),
  (90, [PAct.shift 28]),
  (92, [PAct.shift 29]),
  (94, [PAct.reduce 56 1 0]),
  (96, [PAct.reduce 56 1 0]),
  (98, [PAct.shift 59]),
  (100, [PAct.reduce 62 3 0]),
  (102, [PAct.reduce 62 3 0]),
  (104, [PAct.reduce 61 2 0]),
  (106, [PAct.reduce 61 2 0]),
  (108, [PAct.reduce 57 3 0]),
  (110, [PAct.reduce 57 3 0]),
  (112, [PAct.reduce 66 2 0, PAct.shiftRepeat 88]),
  (115, [PAct.reduce 66 2 0, PAct.shiftRepeat 34]),
  (118, [PAct.reduce 66 2 0, PAct.shiftRepeat 19]),
  (121, [PAct.reduce 66 2 0, PAct.shiftRepeat 93]),
  (124, [PAct.reduce 51 4 1]),
  (126, [PAct.reduce 51 4 1]),
  (128, [PAct.reduce 51 4 4]),
  (130, [PAct.reduce 51 4 4]),
  (132, [PAct.reduce 51 3 1]),
  (134, [PAct.reduce 51 3 1]),
  (136, [PAct.reduce 51 5 7]),
  (138, [PAct.reduce 51 5 7]),
  (140, [PAct.reduce 51 4 5]),
  (142, [PAct.reduce 51 4 5]),
  (144, [PAct.reduce 47 2 0]),
  (146, [PAct.reduce 47 2 0]),
  (148, [PAct.reduce 51 5 4]),
  (150, [PAct.reduce 51 5 4]),
  (152, [PAct.reduce 48 3 2]),
  (154, [PAct.reduce 48 3 2]),
  (156, [PAct.reduce 51 5 5]),
  (158, [PAct.reduce 51 5 5]),
  (160, [PAct.reduce 51 6 7]),
  (162, [PAct.reduce 51 6 7]),
  (164, [PAct.shift 88]),
  (166, [PAct.shift 34]),
  (168, [PAct.shift 19]),
  (170, [PAct.shift 93]),
  (172, [PAct.reduce 53 1 0]),
  (174, [PAct.reduce 53 1 0]),
  (176, [PAct.reduce 58 4 9]),
  (178, [PAct.reduce 58 4 9]),
  (180, [PAct.reduce 58 5 9]),
  (182, [PAct.reduce 58 5 9]),
  (184, [PAct.shift 58]),
  (186, [PAct.shift 55]),
  (188, [PAct.shift 33]),
  (190, [PAct.reduce 64 2 0]),
  (192, [PAct.reduce 64 2 0, PAct.shiftRepeat 73]),
  (195, [PAct.reduce 64 2 0, PAct.shiftRepeat 73]),
  (198, [PAct.shift 32]),
  (200, [PAct.shift 56]),
  (202, [PAct.reduce 60 5 8]),
  (204, [PAct.reduce 60 5 8]),
  (206, [PAct.shift 85]),
  (208, [PAct.shift 48]),
  (210, [PAct.shift 44]),
  (212, [PAct.shift 92]),
  (214, [PAct.reduce 66 2 0, PAct.shiftRepeat 85]),
  (217, [PAct.reduce 66 2 0, PAct.shiftRepeat 48]),
  (220, [PAct.reduce 66 2 0, PAct.shiftRepeat 44]),
  (223, [PAct.reduce 66 2 0, PAct.shiftRepeat 92]),
  (226, [PAct.reduce 47 1 0]),
  (228, [PAct.reduce 63 2 0]),
  (230, [PAct.reduce 63 2 0, PAct.shiftRepeat 45]),
  (233, [PAct.reduce 63 2 0, PAct.shiftRepeat 75]),
  (236, [PAct.reduce 63 2 0, PAct.shiftRepeat 64]),
  (239, [PAct.reduce 63 2 0, PAct.shiftRepeat 74]),
  (242, [PAct.reduce 46 1 0]),
  (244, [PAct.shift 57]),
  (246, [PAct.shift 48]),
  (248, [PAct.shift 43]),
  (250, [PAct.shift 14]),
  (252, [PAct.shift 2]),
  (254, [PAct.shift 34]),
  (256, [PAct.shift 30]),
  (258, [PAct.reduce 50 4 3]),
  (260, [PAct.reduce 50 5 3]),
  (262, [PAct.shift 50]),
  (264, [PAct.shift 37]),
  (266, [PAct.shift 17]),
  (268, [PAct.shift 11]),
  (270, [PAct.shift 83]),
  (272, [PAct.shift 9]),
  (274, [PAct.shift 27]),
  (276, [PAct.reduce 52 1 0]),
  (278, [PAct.shift 70]),
  (280, [PAct.shift 51]),
  (282, [PAct.shift 38]),
  (284, [PAct.acceptInput]),
  (286, [PAct.shift 18]),
  (288, [PAct.shift 76]),
  (290, [PAct.shift 41]),
  (292, [PAct.shift 87]),
  (294, [PAct.reduce 55 1 0]),
  (296, [PAct.shift 61]),
  (298, [PAct.shift 67]),
  (300, [PAct.reduce 59 2 0]),
  (302, [PAct.shift 53]),
  (304, [PAct.shift 5]),
  (306, [PAct.reduce 49 1 0]),
  (308, [PAct.shift 8]),
  (310, [PAct.shift 16]),
  (312, [PAct.shift 15]),
  (314, [PAct.shift 69]),
  (316, [PAct.shift 52]),
  (318, [PAct.shift 49]),
  (320, [PAct.shift 63]),
  (322, [PAct.shift 84]),
  (324, [PAct.shift 36]),
  (326, [PAct.shift 35]),
  (328, [PAct.shift 82]),
  (330, [PAct.shift 54]),
  (332, [PAct.shift 66]),
  (334, [PAct.shift 89])]

def fieldMaps : List (Nat × List (Nat × Nat)) := [(0, []), (1, [(5, 0)]), (2, [(4, 0), (9, 2)]), (3, [(6, 1)]), (4, [(2, 1), (5, 0)]), (5, [(3, 1), (5, 0)]), (6, [(6, 0)]), (7, [(2, 1), (3, 2), (5, 0)]), (8, [(1, 2), (7, 0)]), (9, [(8, 1)])]

/-! ### Lexer interpreter (faithful to ts_lex) -/

/-- Symbol-id constants from enum ts_symbol_identifiers. -/
def symComment : Nat := 1
def symColon : Nat := 3
def symAnnText : Nat := 4
def kwAccept : Nat := 5
def symLBrace : Nat := 10
def symRBrace : Nat := 11
def kwRect : Nat := 13
def kwWidth : Nat := 19
def kwFill : Nat := 21
def symEq : Nat := 37
def symArrow : Nat := 39
def symAt : Nat := 40
def symIdent : Nat := 41
def symNumber : Nat := 42
def symHexColor : Nat := 43
def symDQuote : Nat := 44
def symStrTok : Nat := 45
def symDocument : Nat := 46
def symAnnot : Nat := 47
def symAnnotTyped : Nat := 48
def symAnnotKeyword : Nat := 49
def symStyleBlock : Nat := 50
def symNodeDecl : Nat := 51
def symNodeKind : Nat := 52
def symNodeBodyItem : Nat := 53
def symProperty : Nat := 54
def symPropertyName : Nat := 55
def symValueItem : Nat := 56
def symKeyValuePair : Nat := 57
def symAnimBlock : Nat := 58
def symAnimTrigger : Nat := 59
def symConstraintLine : Nat := 60
def symNodeId : Nat := 61
def symString : Nat := 62

/-- Field-id constants from enum ts_field_identifiers. -/
def fidConstraintType : Nat := 1
def fidId : Nat := 2
def fidInlineText : Nat := 3
def fidKey : Nat := 4
def fidKind : Nat := 5
def fidName : Nat := 6
def fidTarget : Nat := 7
def fidTrigger : Nat := 8
def fidValue : Nat := 9

/-- Pseudo-symbol for a lexically invalid byte (not a grammar symbol). -/
def errSym : Nat := 1000

def lexStGet (s : Nat) : LexSt := lexTable.getD s (mkLexSt none none [])

/-- First transition rule whose character interval contains c
(the if-chains of a ts_lex case are tried top to bottom). -/
def firstRule : List LexRule → Nat → Option LexRule
  | [], _ => none
  | r :: rs, c => if r.lo ≤ c ∧ c ≤ r.hi then some r else firstRule rs c

/-- Result of one ts_lex call: the best accepted (symbol, end position) as
recorded by ACCEPT_TOKEN / mark_end, and the token start (after skips). -/
structure LexOut where
  res : Option (Nat × Nat)
  tokStart : Nat
deriving DecidableEq, Repr

/-- The ACCEPT_TOKEN update on entering a DFA state: an accepting state
records its symbol with the token end marked at the current position. -/
def lexAccUpd (st pos : Nat) (best : Option (Nat × Nat)) : Option (Nat × Nat) :=
  match (lexStGet st).acc with
  | some sym => some (sym, pos)
  | none => best

/-- The transition a DFA state takes on the current lookahead.  At end of
input the lookahead code is 0 and only an `if (eof)` advance can fire. -/
def lexStepAct (input : List Nat) (pos st : Nat) : Option LexRule :=
  if input.length ≤ pos then
    match (lexStGet st).eofTgt with
    | some t => some (korr 0 0 t false)
    | none => firstRule (lexStGet st).rules 0
  else firstRule (lexStGet st).rules (input.getD pos 0)

/-- One ts_lex call, fueled.  Each iteration models one execution of a DFA
state case: ACCEPT_TOKEN on entry (records result and marks the token end at
the current position), then the transition on the lookahead (advancing at
end of input does not move the position, as in the C runtime). -/
def lexGo (input : List Nat) : Nat → Nat → Nat → Nat → Option (Nat × Nat) → Option LexOut
  | 0, _, _, _, _ => none
  | fuel + 1, pos, st, tokStart, best =>
    match lexStepAct input pos st with
    | none => some ⟨lexAccUpd st pos best, tokStart⟩
    | some r =>
      lexGo input fuel (if input.length ≤ pos then pos else pos + 1) r.tgt
        (cond r.isSkip (if input.length ≤ pos then pos else pos + 1) tokStart)
        (lexAccUpd st pos best)

/-- Fuel that always suffices: one step per remaining character plus the
end-of-input advance into the accepting end state. -/
def lexFuel (input : List Nat) (pos : Nat) : Nat := input.length - pos + 2

def lexRun (input : List Nat) (pos mode : Nat) : Option LexOut :=
  lexGo input (lexFuel input pos) pos mode pos none

/-- A lexed token: symbol, start and end position, synthetic flag. -/
structure Tok where
  sym : Nat
  tokStart : Nat
  tokEnd : Nat
  missing : Bool
deriving DecidableEq, Repr

/-- Next token at a position, in the lex mode selected by the parse state.
When no token is recognized in that mode, the runtime retries with the
error-state lex mode (ts_lex_modes[0], which recognizes every token kind).
A failed lex at end of input yields the zero-width end token (symbol 0);
a genuinely unrecognized byte yields a single-byte error token, per the
specification's failure semantics. -/
def nextToken (input : List Nat) (pos mode : Nat) : Tok :=
  match lexRun input pos mode with
  | some out =>
    match out.res with
    | some (sym, e) => ⟨sym, out.tokStart, e, false⟩
    | none =>
      match lexRun input pos 0 with
      | some out2 =>
        match out2.res with
        | some (sym, e) => ⟨sym, out2.tokStart, e, false⟩
        | none =>
          if input.length ≤ out2.tokStart then ⟨0, input.length, input.length, false⟩
          else ⟨errSym, out2.tokStart, out2.tokStart + 1, false⟩
      | none => ⟨errSym, pos, pos + 1, false⟩
  | none => ⟨errSym, pos, pos + 1, false⟩

/-! ### Syntax tree -/

/-- A concrete syntax tree node: a token leaf (with its source span and the
synthetic/missing flag) or an interior node labelled with its symbol and the
production id that reduced it. -/
inductive RawNode where
  | leaf (sym : Nat) (s e : Nat) (missing : Bool)
  | node (sym : Nat) (pid : Nat) (children : List RawNode)
deriving Repr

def RawNode.symOf : RawNode → Nat
  | .leaf sym _ _ _ => sym
  | .node sym _ _ => sym

def RawNode.childrenOf : RawNode → List RawNode
  | .leaf _ _ _ _ => []
  | .node _ _ cs => cs

def RawNode.isMissing : RawNode → Bool
  | .leaf _ _ _ m => m
  | .node _ _ _ => false

/-- Named-field lookup, resolved through ts_field_map_slices and
ts_field_map_entries for the node's production id. -/
def fieldOf (n : RawNode) (fid : Nat) : Option RawNode :=
  match n with
  | .leaf _ _ _ _ => none
  | .node _ pid cs =>
    match ((fieldMaps.find? (fun p => p.fst == pid)).map Prod.snd).getD [] |>.find? (fun e => e.fst == fid) with
    | some e => cs.get? e.snd
    | none => none

/-- All nodes of a tree down to nesting depth `fuel`, the node itself
included (preorder).  For `fuel` at least the tree's depth this is every
node; the fuel only makes the recursion structurally evident. -/
def allNodesF : Nat → RawNode → List RawNode
  | 0, _ => []
  | _ + 1, .leaf sym s e m => [.leaf sym s e m]
  | fuel + 1, .node sym pid cs => .node sym pid cs :: cs.flatMap (allNodesF fuel)

/-- Traversal depth amply covering every tree built in this development. -/
def tfuel : Nat := 1000

def allNodes (t : RawNode) : List RawNode := allNodesF tfuel t

def countSym (t : RawNode) (sym : Nat) : Nat :=
  (allNodes t).countP (fun n => n.symOf == sym)

def nodesOf (t : RawNode) (sym : Nat) : List RawNode :=
  (allNodes t).filter (fun n => n.symOf == sym)

/-- A tree is synthetic-free when no missing placeholder occurs in it. -/
def noMissing (t : RawNode) : Bool :=
  (allNodes t).all (fun n => !n.isMissing)

/-- Source text (code points) of a leaf's span. -/
def tokText (input : List Nat) (s e : Nat) : List Nat :=
  (input.drop s).take (e - s)

/-! ### Parse driver

Modelled from the spec: the shift-reduce engine of §4.3 (the tree-sitter
runtime library) is not part of the repository sources; only its tables are.
The driver below interprets those tables: Shift consumes the lookahead,
Reduce pops `n` entries and pushes the goto state, Accept ends the parse,
and on Error the engine inserts a synthetic missing token when doing so lets
the lookahead be consumed, otherwise skips the lookahead, emitting one
syntax-error diagnostic per recovery event (§4.3, §7). -/

def tblLook (st sym : Nat) : Option Nat :=
  (parseTbl.getD st []).find? (fun p => p.sym == sym) |>.map Pent.val

def actsOf (v : Nat) : List PAct :=
  ((parseActs.find? (fun p => p.fst == v)).map Prod.snd).getD []

/-- Stack entry: automaton state plus the tree node pushed with it (none for
the bottom sentinel). -/
abbrev PStack := List (Nat × Option RawNode)

def topState (stk : PStack) : Nat := ((stk.head?).map Prod.fst).getD 1

/-- Can the lookahead symbol eventually be consumed from this state stack
(chasing reductions), as checked before inserting a missing token? -/
def viable (input : List Nat) : Nat → List Nat → Nat → Bool
  | 0, _, _ => false
  | fuel + 1, stk, sym =>
    let st := stk.headD 1
    match tblLook st sym with
    | none => false
    | some v =>
      match actsOf v with
      | PAct.shift _ :: _ => true
      | PAct.shiftExtra :: _ => true
      | PAct.shiftRepeat _ :: _ => true
      | PAct.acceptInput :: _ => true
      | PAct.reduce lhs n _ :: _ =>
        let stk1 := stk.drop n
        match tblLook (stk1.headD 1) lhs with
        | some g => viable input fuel (g :: stk1) sym
        | none => false
      | _ => false

/-- Smallest terminal with a direct shift from `st` whose insertion makes the
lookahead viable; returns the terminal and its shift target. -/
def findInsert (input : List Nat) (stk : PStack) (looksym : Nat) : Option (Nat × Nat) :=
  let states := stk.map Prod.fst
  (List.range 46).drop 1 |>.filterMap (fun t =>
    match tblLook (topState stk) t with
    | some v =>
      match actsOf v with
      | PAct.shift s :: _ =>
        if viable input 64 (s :: states) looksym then some (t, s) else none
      | _ => none
    | none => none) |>.head?

/-- Pop `n` entries; children in production order.  Fails (none) on an
engine inconsistency (stack too short or sentinel reached). -/
def popN (stk : PStack) (n : Nat) : Option (List RawNode × PStack) :=
  let taken := stk.take n
  if taken.length = n ∧ taken.all (fun p => p.snd.isSome) then
    some ((taken.reverse).filterMap Prod.snd, stk.drop n)
  else none

/-- The main loop.  Returns (tree, diagnostics count); the tree is `none`
only if the fuel budget is exhausted or the tables are inconsistent. -/
def runP (input : List Nat) : Nat → PStack → Nat → Nat → Option RawNode × Nat
  | 0, _, _, diags => (none, diags)
  | fuel + 1, stk, pos, diags =>
    let st := topState stk
    let tok := nextToken input pos (lexModes.getD st 0)
    match tblLook st tok.sym with
    | none =>
      match findInsert input stk tok.sym with
      | some (t, s) =>
        runP input fuel ((s, some (RawNode.leaf t tok.tokStart tok.tokStart true)) :: stk) pos (diags + 1)
      | none =>
        if tok.sym == 0 then (none, diags + 1)
        else runP input fuel stk (max tok.tokEnd (pos + 1)) (diags + 1)
    | some v =>
      match actsOf v with
      | PAct.shift s :: _ =>
        runP input fuel ((s, some (RawNode.leaf tok.sym tok.tokStart tok.tokEnd false)) :: stk) tok.tokEnd diags
      | PAct.shiftExtra :: _ =>
        runP input fuel stk tok.tokEnd diags
      | PAct.reduce lhs n pid :: _ =>
        match popN stk n with
        | some (children, rest) =>
          match tblLook (topState rest) lhs with
          | some g => runP input fuel ((g, some (RawNode.node lhs pid children)) :: rest) pos diags
          | none => (none, diags)
        | none => (none, diags)
      | PAct.acceptInput :: _ => (((stk.head?).bind Prod.snd), diags)
      | _ =>
        match findInsert input stk tok.sym with
        | some (t, s) =>
          runP input fuel ((s, some (RawNode.leaf t tok.tokStart tok.tokStart true)) :: stk) pos (diags + 1)
        | none =>
          if tok.sym == 0 then (none, diags + 1)
          else runP input fuel stk (max tok.tokEnd (pos + 1)) (diags + 1)

/-- Parse a document: returns the syntax tree and the diagnostics count. -/
def parseFd (input : List Nat) : Option RawNode × Nat :=
  runP input (20 * input.length + 200) [] 0 0

def parseTree (input : List Nat) : Option RawNode := (parseFd input).fst

def parseDiags (input : List Nat) : Nat := (parseFd input).snd

/-! ### Lexical shape invariant

Each DFA state is assigned a shape describing the token text consumed since
the token start (stored in reverse);  a table-level check (decided by
evaluation) shows every transition of ts_lex respects the shapes, from which
the token grammars of number and hex_color follow. -/

def isDig (c : Nat) : Bool := 48 ≤ c && c ≤ 57

def isHexD (c : Nat) : Bool := isDig c || (65 ≤ c && c ≤ 70) || (97 ≤ c && c ≤ 102)

/-- Reversed text of the form digits then an optional leading minus:
forward `-?[0-9]+`. -/
def rInt (r : List Nat) : Bool :=
  !(r.takeWhile isDig).isEmpty &&
    ((r.dropWhile isDig).isEmpty || r.dropWhile isDig == [45])

/-- Reversed text of forward form `-?[0-9]+\.[0-9]+`. -/
def rFrac (r : List Nat) : Bool :=
  !(r.takeWhile isDig).isEmpty &&
    (r.dropWhile isDig).head? == some 46 && rInt (r.dropWhile isDig).tail

/-- Reversed text of forward form `-?[0-9]+(\.[0-9]+)?ms`. -/
def rMs (r : List Nat) : Bool :=
  r.head? == some 115 && r.tail.head? == some 109 &&
    (rInt r.tail.tail || rFrac r.tail.tail)

/-- A number token's text, reversed: `-?[0-9]+(\.[0-9]+)?(ms)?`. -/
def numberTextR (r : List Nat) : Bool := rInt r || rFrac r || rMs r

/-- A hex_color token's text, reversed: `#` then 3 to 8 hex digits. -/
def hexTextR (r : List Nat) : Bool :=
  r.getLast? == some 35 && r.dropLast.all isHexD &&
    4 ≤ r.length && r.length ≤ 9

/-- A number token's text (forward): `-?[0-9]+(\.[0-9]+)?(ms)?`
— optional minus, digits, optional fraction, optional `ms` suffix. -/
def numberTextB (l : List Nat) : Bool := numberTextR l.reverse

/-- A hex_color token's text (forward): `#[0-9A-Fa-f]{3,8}` —
a `#` followed by 3 to 8 hexadecimal digits. -/
def hexTextB (l : List Nat) : Bool := hexTextR l.reverse

/-- The number shape the specification claims: bare digits with optional
fraction and `ms` suffix but no sign. -/
def specNumberText (l : List Nat) : Bool := numberTextR l.reverse && l.head? != some 45

/-- The hex-color shape the specification claims: a bare run of 1 to 6 hex
digits with no `#` prefix. -/
def specHexText (l : List Nat) : Bool :=
  1 ≤ l.length && l.length ≤ 6 && l.all isHexD

/-- Shape of the token text consumed so far, per DFA state. -/
inductive Shp where
  | eps
  | top
  | minus
  | numInt
  | numDot
  | numFrac
  | numM
  | numMs
  | hsh (k : Nat)
deriving DecidableEq

/-- Does the reversed token text consumed so far fit the shape? -/
def shpOk : Shp → List Nat → Bool
  | .eps, r => r.isEmpty
  | .top, _ => true
  | .minus, r => r == [45]
  | .numInt, r => rInt r
  | .numDot, r => r.head? == some 46 && rInt r.tail
  | .numFrac, r => rFrac r
  | .numM, r => r.head? == some 109 && (rInt r.tail || rFrac r.tail)
  | .numMs, r => rMs r
  | .hsh k, r => r.length == k + 1 && r.getLast? == some 35 && (r.take k).all isHexD

/-- Shape assignment for the states of ts_lex (read off the DFA: states
6/112 have consumed `#`, 119/118 one or two hex digits, 473–478 a full hex
color; 10/110 a minus, 471/472 the digits, 111 a trailing dot, 83 the `m`,
470 the full `ms`; the eleven lex-mode entry states have consumed nothing). -/
def shp (s : Nat) : Shp :=
  if s == 0 || s == 1 || s == 2 || s == 3 || s == 4 || s == 5 || s == 8 ||
      s == 114 || s == 115 || s == 116 then .eps
  else if s == 10 || s == 110 then .minus
  else if s == 471 then .numInt
  else if s == 111 then .numDot
  else if s == 472 then .numFrac
  else if s == 83 then .numM
  else if s == 470 then .numMs
  else if s == 6 || s == 112 then .hsh 0
  else if s == 119 then .hsh 1
  else if s == 118 then .hsh 2
  else if s == 478 then .hsh 3
  else if s == 477 then .hsh 4
  else if s == 476 then .hsh 5
  else if s == 475 then .hsh 6
  else if s == 474 then .hsh 7
  else if s == 473 then .hsh 8
  else .top

/-- Is the interval lo..hi inside the digit class? -/
def subDig (lo hi : Nat) : Bool := 48 ≤ lo && hi ≤ 57

/-- Is the interval lo..hi inside one piece of the hex-digit class? -/
def subHex (lo hi : Nat) : Bool :=
  (48 ≤ lo && hi ≤ 57) || (65 ≤ lo && hi ≤ 70) || (97 ≤ lo && hi ≤ 102)

/-- One-step shape compatibility: consuming any character of the interval
from a text of the first shape yields a text of the second shape. -/
def stepOKB : Shp → Nat → Nat → Shp → Bool
  | _, _, _, .top => true
  | .eps, lo, hi, .minus => lo == 45 && hi == 45
  | .eps, lo, hi, .numInt => subDig lo hi
  | .eps, lo, hi, .hsh k => k == 0 && lo == 35 && hi == 35
  | .minus, lo, hi, .numInt => subDig lo hi
  | .numInt, lo, hi, .numInt => subDig lo hi
  | .numInt, lo, hi, .numDot => lo == 46 && hi == 46
  | .numInt, lo, hi, .numM => lo == 109 && hi == 109
  | .numDot, lo, hi, .numFrac => subDig lo hi
  | .numFrac, lo, hi, .numFrac => subDig lo hi
  | .numFrac, lo, hi, .numM => lo == 109 && hi == 109
  | .numM, lo, hi, .numMs => lo == 115 && hi == 115
  | .hsh k, lo, hi, .hsh j => j == k + 1 && subHex lo hi
  | _, _, _, _ => false

/-- Table-level check for one lexer state: transition rules respect the
shapes, skips stay among the empty-text entry states, accepting states for
number and hex_color carry the matching shapes, accepted symbols are
grammar terminals, rules never fire on the NUL lookahead, and the
end-of-input advance only targets a plain final state. -/
def lexStChk (s : Nat) : Bool :=
  let st := lexStGet s
  (st.rules.all fun r =>
    (1 ≤ r.lo) &&
    (if r.isSkip then shp s == .eps && shp r.tgt == .eps
     else stepOKB (shp s) r.lo r.hi (shp r.tgt))) &&
  (match st.eofTgt with
   | some t => shp t == .top && (lexStGet t).eofTgt == none &&
       ((lexStGet t).rules.all fun r => 1 ≤ r.lo)
   | none => true) &&
  (match st.acc with
   | some a =>
     (shp s != .eps) && (a ≤ 45) &&
     (!(a == 42) || shp s == .numInt || shp s == .numFrac || shp s == .numMs) &&
     (!(a == 43) || shp s == .hsh 3 || shp s == .hsh 4 || shp s == .hsh 5 ||
        shp s == .hsh 6 || shp s == .hsh 7 || shp s == .hsh 8)
   | none => true)

/-- The table check over every state of ts_lex. -/
def lexChkAll : Bool := (List.range 486).all lexStChk

/-- Every lex mode the parse table selects starts with empty token text. -/
def lexModesChk : Bool := lexModes.all fun m => shpOk (shp m) []

/-! ### Soundness of the shape invariant -/

/-- Reversed token text between `s` and `p` in the input. -/
def rtok (input : List Nat) (s p : Nat) : List Nat :=
  ((input.drop s).take (p - s)).reverse

theorem rtok_self (input : List Nat) (s : Nat) : rtok input s s = [] := by
  simp [rtok]

theorem rtok_succ (input : List Nat) {s p : Nat} (hsp : s ≤ p)
    (hp : p < input.length) :
    rtok input s (p + 1) = input.getD p 0 :: rtok input s p := by
  have h1 : p + 1 - s = (p - s) + 1 := by omega
  have h4 : s + (p - s) = p := by omega
  simp [rtok, h1, List.take_succ, List.getElem?_drop, h4,
    List.getD_eq_getElem?_getD, List.getElem?_eq_getElem hp]

theorem firstRule_spec : ∀ (rs : List LexRule) (c : Nat) (r : LexRule),
    firstRule rs c = some r → r ∈ rs ∧ r.lo ≤ c ∧ c ≤ r.hi := by
  intro rs
  induction rs with
  | nil => intro c r h; simp [firstRule] at h
  | cons a as ih =>
    intro c r h
    by_cases hc : a.lo ≤ c ∧ c ≤ a.hi
    · simp [firstRule, hc] at h
      subst h
      exact ⟨List.mem_cons_self a as, hc⟩
    · simp [firstRule, hc] at h
      rcases ih c r h with ⟨hm, hb⟩
      exact ⟨List.mem_cons_of_mem a hm, hb⟩

theorem firstRule_none (rs : List LexRule)
    (h : ∀ r ∈ rs, 1 ≤ r.lo) : firstRule rs 0 = none := by
  induction rs with
  | nil => rfl
  | cons a as ih =>
    have ha := h a (List.mem_cons_self a as)
    have hno : ¬ (a.lo ≤ 0 ∧ 0 ≤ a.hi) := by omega
    simp only [firstRule, if_neg hno]
    exact ih fun r hr => h r (List.mem_cons_of_mem a hr)

theorem rInt_cons {c : Nat} {r : List Nat} (hc : isDig c = true)
    (hr : rInt r = true) : rInt (c :: r) = true := by
  unfold rInt at hr ⊢
  rw [List.takeWhile_cons_of_pos hc, List.dropWhile_cons_of_pos hc]
  rw [Bool.and_eq_true] at hr
  simp only [List.isEmpty_cons, Bool.not_false, Bool.true_and]
  exact hr.2

theorem rFrac_cons {c : Nat} {r : List Nat} (hc : isDig c = true)
    (hr : rFrac r = true) : rFrac (c :: r) = true := by
  unfold rFrac at hr ⊢
  rw [List.takeWhile_cons_of_pos hc, List.dropWhile_cons_of_pos hc]
  rw [Bool.and_eq_true, Bool.and_eq_true] at hr
  simp only [List.isEmpty_cons, Bool.not_false, Bool.true_and, Bool.and_eq_true]
  exact ⟨hr.1.2, hr.2⟩

theorem stepOKB_ne_eps (a : Shp) (lo hi : Nat) :
    stepOKB a lo hi .eps = false := by
  cases a <;> rfl

theorem isDig_45 : isDig 45 = false := by decide

theorem isDig_46 : isDig 46 = false := by decide

theorem stepOK_sound {a b : Shp} {lo hi c : Nat} {r : List Nat}
    (h : stepOKB a lo hi b = true) (hlo : lo ≤ c) (hhi : c ≤ hi)
    (hr : shpOk a r = true) : shpOk b (c :: r) = true := by
  have hdig : subDig lo hi = true → isDig c = true := by
    intro hs
    rw [subDig, Bool.and_eq_true] at hs
    simp only [decide_eq_true_eq] at hs
    simp only [isDig, Bool.and_eq_true, decide_eq_true_eq]
    omega
  have hhex : subHex lo hi = true → isHexD c = true := by
    intro hs
    simp only [subHex, subDig, Bool.or_eq_true, Bool.and_eq_true,
      decide_eq_true_eq] at hs
    simp only [isHexD, isDig, Bool.or_eq_true, Bool.and_eq_true,
      decide_eq_true_eq]
    omega
  cases a <;> cases b <;> first
  | rfl
  | exact Bool.noConfusion h
  | skip
  case eps.minus =>
    replace h : (lo == 45 && hi == 45) = true := h
    replace hr : r.isEmpty = true := hr
    simp only [Bool.and_eq_true, beq_iff_eq] at h
    rw [List.isEmpty_iff] at hr
    subst hr
    have : c = 45 := by omega
    subst this
    show ([45] == [45]) = true
    rfl
  case eps.numInt =>
    replace hr : r.isEmpty = true := hr
    rw [List.isEmpty_iff] at hr
    subst hr
    show rInt [c] = true
    unfold rInt
    rw [List.takeWhile_cons_of_pos (hdig h), List.dropWhile_cons_of_pos (hdig h)]
    rfl
  case eps.hsh k =>
    replace h : (k == 0 && lo == 35 && hi == 35) = true := h
    replace hr : r.isEmpty = true := hr
    rw [List.isEmpty_iff] at hr
    subst hr
    simp only [Bool.and_eq_true, beq_iff_eq] at h
    obtain ⟨⟨hk, h1⟩, h2⟩ := h
    subst hk
    have : c = 35 := by omega
    subst this
    show ((1 : Nat) == 0 + 1 && some 35 == some 35 && List.all [] isHexD) = true
    rfl
  case minus.numInt =>
    replace hr : (r == [45]) = true := hr
    rw [beq_iff_eq] at hr
    subst hr
    show rInt [c, 45] = true
    unfold rInt
    rw [List.takeWhile_cons_of_pos (hdig h), List.dropWhile_cons_of_pos (hdig h),
      List.takeWhile_cons_of_neg (by rw [isDig_45]; exact Bool.false_ne_true),
      List.dropWhile_cons_of_neg (by rw [isDig_45]; exact Bool.false_ne_true)]
    rfl
  case numInt.numInt =>
    exact rInt_cons (hdig h) hr
  case numInt.numDot =>
    replace h : (lo == 46 && hi == 46) = true := h
    simp only [Bool.and_eq_true, beq_iff_eq] at h
    have : c = 46 := by omega
    subst this
    replace hr : rInt r = true := hr
    show ((46 :: r).head? == some 46 && rInt (46 :: r).tail) = true
    simp only [List.head?_cons, List.tail_cons, hr]
    rfl
  case numInt.numM =>
    replace h : (lo == 109 && hi == 109) = true := h
    simp only [Bool.and_eq_true, beq_iff_eq] at h
    have : c = 109 := by omega
    subst this
    replace hr : rInt r = true := hr
    show ((109 :: r).head? == some 109 && (rInt (109 :: r).tail || rFrac (109 :: r).tail)) = true
    simp only [List.head?_cons, List.tail_cons, hr]
    rfl
  case numDot.numFrac =>
    replace hr : (r.head? == some 46 && rInt r.tail) = true := hr
    rw [Bool.and_eq_true, beq_iff_eq] at hr
    obtain ⟨h46, hint⟩ := hr
    rcases r with _ | ⟨c2, r2⟩
    · exact absurd h46 (by simp)
    · simp only [List.head?_cons, Option.some.injEq] at h46
      subst h46
      simp only [List.tail_cons] at hint
      show rFrac (c :: 46 :: r2) = true
      unfold rFrac
      rw [List.takeWhile_cons_of_pos (hdig h), List.dropWhile_cons_of_pos (hdig h),
        List.takeWhile_cons_of_neg (by rw [isDig_46]; exact Bool.false_ne_true),
        List.dropWhile_cons_of_neg (by rw [isDig_46]; exact Bool.false_ne_true)]
      simp only [List.isEmpty_cons, Bool.not_false, Bool.true_and,
        List.head?_cons, List.tail_cons, Bool.and_eq_true, beq_iff_eq]
      exact ⟨trivial, hint⟩
  case numFrac.numFrac =>
    exact rFrac_cons (hdig h) hr
  case numFrac.numM =>
    replace h : (lo == 109 && hi == 109) = true := h
    simp only [Bool.and_eq_true, beq_iff_eq] at h
    have : c = 109 := by omega
    subst this
    replace hr : rFrac r = true := hr
    show ((109 :: r).head? == some 109 && (rInt (109 :: r).tail || rFrac (109 :: r).tail)) = true
    simp only [List.head?_cons, List.tail_cons, hr]
    simp
  case numM.numMs =>
    replace h : (lo == 115 && hi == 115) = true := h
    simp only [Bool.and_eq_true, beq_iff_eq] at h
    have : c = 115 := by omega
    subst this
    replace hr : (r.head? == some 109 && (rInt r.tail || rFrac r.tail)) = true := hr
    rw [Bool.and_eq_true, beq_iff_eq] at hr
    obtain ⟨h109, hv⟩ := hr
    rcases r with _ | ⟨c2, r2⟩
    · exact absurd h109 (by simp)
    · simp only [List.head?_cons, Option.some.injEq] at h109
      subst h109
      simp only [List.tail_cons] at hv
      show rMs (115 :: 109 :: r2) = true
      unfold rMs
      simp only [List.head?_cons, List.tail_cons, hv]
      rfl
  case hsh.hsh k j =>
    replace h : (j == k + 1 && subHex lo hi) = true := h
    rw [Bool.and_eq_true, beq_iff_eq] at h
    obtain ⟨hj, hsub⟩ := h
    subst hj
    replace hr : (r.length == k + 1 && r.getLast? == some 35 &&
      (r.take k).all isHexD) = true := hr
    rw [Bool.and_eq_true, Bool.and_eq_true, beq_iff_eq, beq_iff_eq] at hr
    obtain ⟨⟨hlen, hlast⟩, hhx⟩ := hr
    show ((c :: r).length == k + 1 + 1 && (c :: r).getLast? == some 35 &&
      ((c :: r).take (k + 1)).all isHexD) = true
    rw [Bool.and_eq_true, Bool.and_eq_true, beq_iff_eq, beq_iff_eq]
    refine ⟨⟨by simp [hlen], ?_⟩, ?_⟩
    · rcases r with _ | ⟨x, xs⟩
      · simp at hlen
      · rw [List.getLast?_cons_cons]
        exact hlast
    · rw [List.take_succ_cons, List.all_cons, Bool.and_eq_true]
      exact ⟨hhex hsub, hhx⟩

/-! ### The lexer invariant run lemma and the token-shape theorems -/

set_option maxRecDepth 40000

theorem lexChkAll_true : lexChkAll = true := by decide

theorem lexModesChk_true : lexModesChk = true := by decide

theorem lexTable_length : lexTable.length = 485 := by decide

theorem lexStChk_true (s : Nat) : lexStChk s = true := by
  by_cases hs : s < 486
  · have h := lexChkAll_true
    rw [lexChkAll, List.all_eq_true] at h
    exact h s (List.mem_range.mpr hs)
  · have hget : lexStGet s = mkLexSt none none [] := by
      rw [lexStGet]
      apply List.getD_eq_default
      rw [lexTable_length]
      omega
    rw [lexStChk, hget]
    rfl

theorem chk_rule {s : Nat} {r : LexRule} (hr : r ∈ (lexStGet s).rules) :
    1 ≤ r.lo ∧
    (r.isSkip = true → shp s = .eps ∧ shp r.tgt = .eps) ∧
    (r.isSkip = false → stepOKB (shp s) r.lo r.hi (shp r.tgt) = true) := by
  have h := lexStChk_true s
  rw [lexStChk] at h
  rw [Bool.and_eq_true, Bool.and_eq_true] at h
  have h1 := h.1.1
  rw [List.all_eq_true] at h1
  have h2 := h1 r hr
  rw [Bool.and_eq_true, decide_eq_true_eq] at h2
  refine ⟨h2.1, ?_, ?_⟩
  · intro hsk
    have := h2.2
    rw [hsk, if_pos rfl, Bool.and_eq_true, beq_iff_eq, beq_iff_eq] at this
    exact this
  · intro hsk
    have := h2.2
    rw [hsk] at this
    simpa using this

theorem chk_eof {s t : Nat} (h : (lexStGet s).eofTgt = some t) :
    shp t = .top ∧ (lexStGet t).eofTgt = none ∧
      ∀ r ∈ (lexStGet t).rules, 1 ≤ r.lo := by
  have hc := lexStChk_true s
  rw [lexStChk] at hc
  rw [Bool.and_eq_true, Bool.and_eq_true] at hc
  have h2 := hc.1.2
  rw [h] at h2
  rw [Bool.and_eq_true, Bool.and_eq_true, beq_iff_eq] at h2
  obtain ⟨⟨htop, hnone⟩, hrules⟩ := h2
  rw [List.all_eq_true] at hrules
  refine ⟨htop, by simpa using hnone, fun r hr => ?_⟩
  have := hrules r hr
  simpa using this

theorem chk_acc {s a : Nat} (h : (lexStGet s).acc = some a) :
    shp s ≠ .eps ∧ a ≤ 45 ∧
    (a = 42 → shp s = .numInt ∨ shp s = .numFrac ∨ shp s = .numMs) ∧
    (a = 43 → shp s = .hsh 3 ∨ shp s = .hsh 4 ∨ shp s = .hsh 5 ∨
      shp s = .hsh 6 ∨ shp s = .hsh 7 ∨ shp s = .hsh 8) := by
  have hc := lexStChk_true s
  rw [lexStChk] at hc
  rw [Bool.and_eq_true] at hc
  have h2 := hc.2
  rw [h] at h2
  rw [Bool.and_eq_true, Bool.and_eq_true, Bool.and_eq_true] at h2
  obtain ⟨⟨⟨hne, hle⟩, h42⟩, h43⟩ := h2
  refine ⟨?_, by simpa using hle, ?_, ?_⟩
  · intro he
    rw [bne_iff_ne] at hne
    exact hne he
  · intro ha
    subst ha
    simp only [beq_self_eq_true, Bool.not_true, Bool.false_or,
      Bool.or_eq_true, beq_iff_eq] at h42
    rcases h42 with (hx | hx) | hx
    · exact Or.inl hx
    · exact Or.inr (Or.inl hx)
    · exact Or.inr (Or.inr hx)
  · intro ha
    subst ha
    simp only [beq_self_eq_true, Bool.not_true, Bool.false_or,
      Bool.or_eq_true, beq_iff_eq] at h43
    rcases h43 with ((((hx | hx) | hx) | hx) | hx) | hx
    · exact Or.inl hx
    · exact Or.inr (Or.inl hx)
    · exact Or.inr (Or.inr (Or.inl hx))
    · exact Or.inr (Or.inr (Or.inr (Or.inl hx)))
    · exact Or.inr (Or.inr (Or.inr (Or.inr (Or.inl hx))))
    · exact Or.inr (Or.inr (Or.inr (Or.inr (Or.inr hx))))

/-- Facts carried about the best accepted token so far: its symbol is a
grammar terminal, and when it is number or hex_color its text has the
corresponding shape. -/
def bestOK (input : List Nat) (s : Nat) : Option (Nat × Nat) → Prop
  | none => True
  | some (sym, e) =>
      sym ≤ 45 ∧
      (sym = 42 → numberTextR (rtok input s e) = true) ∧
      (sym = 43 → hexTextR (rtok input s e) = true)

theorem hexTextR_of_hsh {k : Nat} {r : List Nat} (h3 : 3 ≤ k) (h8 : k ≤ 8)
    (h : shpOk (.hsh k) r = true) : hexTextR r = true := by
  replace h : (r.length == k + 1 && r.getLast? == some 35 &&
    (r.take k).all isHexD) = true := h
  rw [Bool.and_eq_true, Bool.and_eq_true, beq_iff_eq, beq_iff_eq] at h
  obtain ⟨⟨hlen, hlast⟩, hhx⟩ := h
  rw [hexTextR, Bool.and_eq_true, Bool.and_eq_true, Bool.and_eq_true]
  have hdl : r.dropLast = r.take k := by
    rw [List.dropLast_eq_take, hlen]
    simp
  refine ⟨⟨⟨by simp [hlast], ?_⟩, ?_⟩, ?_⟩
  · rw [hdl]
    exact hhx
  · rw [hlen]
    simpa using by omega
  · rw [hlen]
    simpa using by omega

theorem numberTextR_of_shape {s : Nat} {r : List Nat}
    (hs : shp s = .numInt ∨ shp s = .numFrac ∨ shp s = .numMs)
    (h : shpOk (shp s) r = true) : numberTextR r = true := by
  rw [numberTextR, Bool.or_eq_true, Bool.or_eq_true]
  rcases hs with hx | hx | hx <;> rw [hx] at h
  · exact Or.inl (Or.inl h)
  · exact Or.inl (Or.inr h)
  · exact Or.inr h

theorem bestOK_upd {input : List Nat} {tokStart pos st : Nat}
    {best : Option (Nat × Nat)}
    (hshape : shpOk (shp st) (rtok input tokStart pos) = true)
    (hbest : bestOK input tokStart best) :
    bestOK input tokStart (lexAccUpd st pos best) := by
  rw [lexAccUpd]
  rcases hacc : (lexStGet st).acc with _ | a
  · exact hbest
  · rcases chk_acc hacc with ⟨_, hle, h42, h43⟩
    refine ⟨hle, ?_, ?_⟩
    · intro ha
      exact numberTextR_of_shape (h42 ha) hshape
    · intro ha
      rcases h43 ha with hx | hx | hx | hx | hx | hx <;> rw [hx] at hshape
      · exact hexTextR_of_hsh (by omega) (by omega) hshape
      · exact hexTextR_of_hsh (by omega) (by omega) hshape
      · exact hexTextR_of_hsh (by omega) (by omega) hshape
      · exact hexTextR_of_hsh (by omega) (by omega) hshape
      · exact hexTextR_of_hsh (by omega) (by omega) hshape
      · exact hexTextR_of_hsh (by omega) (by omega) hshape

theorem lexAccUpd_eps {st pos : Nat} {best : Option (Nat × Nat)}
    (he : shp st = .eps) : lexAccUpd st pos best = best := by
  rw [lexAccUpd]
  rcases hacc : (lexStGet st).acc with _ | a
  · rfl
  · exact absurd he (chk_acc hacc).1

/-- The shape invariant along a ts_lex run: whatever token the run finally
reports obeys the number/hex_color text grammar. -/
theorem lexGo_main (input : List Nat) :
    ∀ (fuel pos st tokStart : Nat) (best : Option (Nat × Nat)),
      tokStart ≤ pos →
      shpOk (shp st) (rtok input tokStart pos) = true →
      bestOK input tokStart best →
      (shp st = .eps → best = none ∧ tokStart = pos) →
      ∀ out, lexGo input fuel pos st tokStart best = some out →
        bestOK input out.tokStart out.res := by
  intro fuel
  induction fuel with
  | zero =>
    intro pos st tokStart best _ _ _ _ out h
    simp [lexGo] at h
  | succ n ih =>
    intro pos st tokStart best hle hshape hbest heps out h
    rw [lexGo] at h
    split at h
    · simp only [Option.some.injEq] at h
      subst h
      exact bestOK_upd hshape hbest
    · rename_i r hstep
      by_cases hp : input.length ≤ pos
      · rw [lexStepAct, if_pos hp] at hstep
        rcases het : (lexStGet st).eofTgt with _ | t <;> rw [het] at hstep
        · exfalso
          have hall : ∀ r2 ∈ (lexStGet st).rules, 1 ≤ r2.lo :=
            fun r2 hr2 => (chk_rule hr2).1
          rw [firstRule_none _ hall] at hstep
          exact Option.noConfusion hstep
        · simp only [Option.some.injEq] at hstep
          subst hstep
          rw [if_pos hp] at h
          simp only [korr, Bool.cond_false] at h
          rcases chk_eof het with ⟨htop, _, _⟩
          refine ih pos t tokStart _ hle ?_ (bestOK_upd hshape hbest) ?_ out h
          · rw [htop]
            rfl
          · intro he
            rw [htop] at he
            exact absurd he (by intro hx; cases hx)
      · rw [lexStepAct, if_neg hp] at hstep
        rcases firstRule_spec _ _ _ hstep with ⟨hmem, hlo2, hhi2⟩
        rcases chk_rule hmem with ⟨_, hskT, hskF⟩
        rw [if_neg hp] at h
        have hlt : pos < input.length := by omega
        cases hsk : r.isSkip
        · rw [hsk] at h
          simp only [Bool.cond_false] at h
          have hstepok := hskF hsk
          refine ih (pos + 1) r.tgt tokStart _ (by omega) ?_
            (bestOK_upd hshape hbest) ?_ out h
          · rw [rtok_succ input hle hlt]
            exact stepOK_sound hstepok hlo2 hhi2 hshape
          · intro he
            rw [he] at hstepok
            rw [stepOKB_ne_eps] at hstepok
            exact absurd hstepok (by simp)
        · rw [hsk] at h
          simp only [Bool.cond_true] at h
          rcases hskT hsk with ⟨hepsS, hepsT⟩
          rcases heps hepsS with ⟨hbn, _⟩
          rw [lexAccUpd_eps hepsS, hbn] at h
          refine ih (pos + 1) r.tgt (pos + 1) none (Nat.le_refl _) ?_ trivial ?_ out h
          · rw [rtok_self, hepsT]
            rfl
          · intro _
            exact ⟨rfl, rfl⟩

/-! ### Lexer-level theorems -/

theorem lexRun_shape (input : List Nat) (pos mode : Nat)
    (hm : mode ∈ lexModes) (out : LexOut) (h : lexRun input pos mode = some out) :
    bestOK input out.tokStart out.res := by
  have hmode : shpOk (shp mode) [] = true := by
    have hall := lexModesChk_true
    rw [lexModesChk, List.all_eq_true] at hall
    exact hall mode hm
  exact lexGo_main input (lexFuel input pos) pos mode pos none
    (Nat.le_refl _) (by rw [rtok_self]; exact hmode) trivial
    (fun _ => ⟨rfl, rfl⟩) out h

theorem lexRun_sym_le (input : List Nat) (pos mode : Nat)
    (hm : mode ∈ lexModes) (out : LexOut) (h : lexRun input pos mode = some out)
    (sym e : Nat) (he : out.res = some (sym, e)) : sym ≤ 45 := by
  have hmain := lexRun_shape input pos mode hm out h
  rw [he] at hmain
  exact hmain.1

theorem lexModes_zero : (0 : Nat) ∈ lexModes := by decide

theorem nextToken_sym (input : List Nat) (pos mode : Nat) (hm : mode ∈ lexModes) :
    (nextToken input pos mode).sym ≤ 45 ∨ (nextToken input pos mode).sym = errSym := by
  rw [nextToken]
  split
  · rename_i out1 h1
    split
    · rename_i sym e he
      exact Or.inl (lexRun_sym_le input pos mode hm out1 h1 sym e he)
    · rename_i hres
      split
      · rename_i out2 h2
        split
        · rename_i sym e he
          exact Or.inl (lexRun_sym_le input pos 0 lexModes_zero out2 h2 sym e he)
        · split
          · left
            show (0 : Nat) ≤ 45
            omega
          · exact Or.inr rfl
      · exact Or.inr rfl
  · exact Or.inr rfl

/-- Allowed production id and child count for each reduced symbol, as read
off the REDUCE actions of ts_parse_actions. -/
def prodOKn (sym pid n : Nat) : Bool :=
  if sym == symNodeDecl then
    (pid == 1 && (n == 3 || n == 4)) || (pid == 4 && (n == 4 || n == 5)) ||
    (pid == 5 && (n == 4 || n == 5)) || (pid == 7 && (n == 5 || n == 6))
  else if sym == symProperty then pid == 6 && n == 3
  else if sym == symConstraintLine then pid == 8 && n == 5
  else if sym == symAnnotTyped then pid == 2 && n == 3
  else true

/-- Every leaf is a grammar terminal (or the error pseudo-token) and every
interior node was built by a reduce action of the table. -/
def nodeOK : RawNode → Bool
  | .leaf sym _ _ _ => sym ≤ 45 || sym == errSym
  | .node sym pid cs => prodOKn sym pid cs.length

def actOK : PAct → Bool
  | .reduce lhs n pid => prodOKn lhs pid n
  | _ => true

/-- Every reduce action of ts_parse_actions builds an allowed node. -/
def actsChk : Bool := parseActs.all fun p => p.snd.all actOK

theorem actsChk_true : actsChk = true := by decide

/-- Every node of the tree, at every depth, satisfies nodeOK. -/
def GoodT (t : RawNode) : Prop := ∀ fuel, (allNodesF fuel t).all nodeOK = true

theorem GoodT_leaf {sym a b : Nat} {m : Bool}
    (h : sym ≤ 45 ∨ sym = errSym) : GoodT (.leaf sym a b m) := by
  intro fuel
  cases fuel with
  | zero => rfl
  | succ f =>
    show ([RawNode.leaf sym a b m].all nodeOK) = true
    simp only [List.all_cons, List.all_nil, Bool.and_true, nodeOK]
    rcases h with h | h <;> simp [h]

theorem GoodT_node {sym pid : Nat} {cs : List RawNode}
    (h : prodOKn sym pid cs.length = true)
    (hcs : ∀ c ∈ cs, GoodT c) : GoodT (.node sym pid cs) := by
  intro fuel
  cases fuel with
  | zero => rfl
  | succ f =>
    show (RawNode.node sym pid cs :: cs.flatMap (allNodesF f)).all nodeOK = true
    rw [List.all_cons, Bool.and_eq_true]
    constructor
    · exact h
    · rw [List.all_eq_true]
      intro x hx
      rcases List.mem_flatMap.mp hx with ⟨c, hc, hxc⟩
      have := hcs c hc f
      rw [List.all_eq_true] at this
      exact this x hxc

theorem GoodT_elim {t : RawNode} (h : GoodT t) {fuel : Nat} {n : RawNode}
    (hn : n ∈ allNodesF fuel t) : nodeOK n = true := by
  have := h fuel
  rw [List.all_eq_true] at this
  exact this n hn

theorem self_mem_allNodesF {fuel : Nat} (hf : 1 ≤ fuel) (x : RawNode) :
    x ∈ allNodesF fuel x := by
  cases fuel with
  | zero => omega
  | succ f =>
    cases x with
    | leaf s a b m => exact List.mem_cons_self _ _
    | node s p cs => exact List.mem_cons_self _ _

/-- Stack invariant: every tree node held on the parse stack is good. -/
def stkOK (stk : PStack) : Prop :=
  ∀ p ∈ stk, ∀ nd, p.snd = some nd → GoodT nd

theorem stkOK_nil : stkOK [] := by
  intro p hp
  simp at hp

theorem stkOK_cons {stk : PStack} {s : Nat} {nd : RawNode}
    (h : stkOK stk) (hnd : GoodT nd) : stkOK ((s, some nd) :: stk) := by
  intro p hp nd2 hnd2
  rcases List.mem_cons.mp hp with he | hm
  · subst he
    simp at hnd2
    subst hnd2
    exact hnd
  · exact h p hm nd2 hnd2

theorem filterMap_snd_length {α β : Type} (l : List (α × Option β))
    (h : ∀ p ∈ l, p.snd.isSome = true) :
    (l.filterMap Prod.snd).length = l.length := by
  induction l with
  | nil => rfl
  | cons a as ih =>
    have ha := h a (List.mem_cons_self a as)
    rcases hs : a.snd with _ | b
    · rw [hs] at ha
      simp at ha
    · simp only [List.filterMap_cons, hs, List.length_cons]
      rw [ih fun p hp => h p (List.mem_cons_of_mem a hp)]

theorem popN_good {stk : PStack} {n : Nat} {children : List RawNode}
    {rest : PStack} (h : popN stk n = some (children, rest))
    (hstk : stkOK stk) :
    (∀ c ∈ children, GoodT c) ∧ stkOK rest ∧ children.length = n := by
  rw [popN] at h
  split at h
  · rename_i hcond
    simp only [Option.some.injEq, Prod.mk.injEq] at h
    obtain ⟨hch, hrest⟩ := h
    obtain ⟨hlen, hall⟩ := hcond
    rw [List.all_eq_true] at hall
    refine ⟨?_, ?_, ?_⟩
    · intro c hc
      rw [← hch] at hc
      rcases List.mem_filterMap.mp hc with ⟨p, hp, hps⟩
      have hpmem : p ∈ stk := List.mem_of_mem_take (List.mem_reverse.mp hp)
      exact hstk p hpmem c hps
    · intro p hp nd hnd
      rw [← hrest] at hp
      exact hstk p (List.mem_of_mem_drop hp) nd hnd
    · rw [← hch]
      rw [filterMap_snd_length]
      · simp [hlen]
      · intro p hp
        exact hall p (List.mem_reverse.mp hp)
  · exact Option.noConfusion h

theorem head?_mem_list {α : Type} {l : List α} {a : α}
    (h : l.head? = some a) : a ∈ l := by
  cases l with
  | nil => exact Option.noConfusion h
  | cons x xs =>
    simp only [List.head?_cons, Option.some.injEq] at h
    subst h
    exact List.mem_cons_self x xs

theorem findInsert_le {input : List Nat} {stk : PStack} {s0 t s : Nat}
    (h : findInsert input stk s0 = some (t, s)) : t ≤ 45 := by
  rw [findInsert] at h
  have hm := head?_mem_list h
  rcases List.mem_filterMap.mp hm with ⟨x, hx, hfx⟩
  have hx46 : x < 46 := by
    have := List.mem_range.mp (List.mem_of_mem_drop hx)
    omega
  have hteq : t = x := by
    split at hfx
    · split at hfx
      · split at hfx
        · simp only [Option.some.injEq, Prod.mk.injEq] at hfx
          exact hfx.1.symm
        · exact Option.noConfusion hfx
      all_goals try exact Option.noConfusion hfx
    · exact Option.noConfusion hfx
  omega

theorem lexModes_getD_mem (st : Nat) : lexModes.getD st 0 ∈ lexModes := by
  by_cases hlt : st < lexModes.length
  · rw [List.getD_eq_getElem?_getD, List.getElem?_eq_getElem hlt]
    exact List.getElem_mem hlt
  · rw [List.getD_eq_default]
    · exact lexModes_zero
    · omega

/-- Along the whole parse the stack stays good, hence so does the tree the
driver returns. -/
theorem runP_good (input : List Nat) :
    ∀ (fuel : Nat) (stk : PStack) (pos diags : Nat), stkOK stk →
      ∀ t d, runP input fuel stk pos diags = (some t, d) → GoodT t := by
  intro fuel
  induction fuel with
  | zero =>
    intro stk pos diags hstk t d h
    simp [runP] at h
  | succ n ih =>
    intro stk pos diags hstk t d h
    rw [runP] at h
    have htok := nextToken_sym input pos (lexModes.getD (topState stk) 0)
      (lexModes_getD_mem (topState stk))
    split at h
    · -- no action: recovery
      split at h
      · rename_i heq
        exact ih _ _ _ (stkOK_cons hstk (GoodT_leaf (Or.inl (findInsert_le heq)))) t d h
      · split at h
        · simp at h
        · exact ih _ _ _ hstk t d h
    · rename_i v hv
      split at h
      · -- shift
        refine ih _ _ _ (stkOK_cons hstk (GoodT_leaf ?_)) t d h
        exact htok
      · -- shift extra
        exact ih _ _ _ hstk t d h
      · -- reduce
        rename_i lhs n2 pid rest2 hacts
        split at h
        · rename_i children rest hpop
          rcases popN_good hpop hstk with ⟨hch, hrest, hlen⟩
          split at h
          · rename_i g hg
            refine ih _ _ _ (stkOK_cons hrest (GoodT_node ?_ hch)) t d h
            -- the reduce action comes from the action table
            have hmem : PAct.reduce lhs n2 pid ∈ actsOf v := by
              rw [hacts]
              exact List.mem_cons_self _ _
            rw [actsOf] at hmem
            rcases hfind : parseActs.find? (fun p => p.fst == v) with _ | p
            · rw [hfind] at hmem
              simp at hmem
            · rw [hfind] at hmem
              simp only [Option.map_some', Option.getD_some] at hmem
              have hpmem := List.mem_of_find?_eq_some hfind
              have hchk := actsChk_true
              rw [actsChk, List.all_eq_true] at hchk
              have := hchk p hpmem
              rw [List.all_eq_true] at this
              have hok := this _ hmem
              rw [hlen]
              exact hok
          · simp at h
        · simp at h
      · -- accept
        rcases stk with _ | ⟨p, rest⟩
        · simp at h
        · simp only [List.head?_cons, Option.some_bind] at h
          rcases hps : p.snd with _ | nd
          · rw [hps] at h
            simp at h
          · rw [hps] at h
            simp only [Prod.mk.injEq, Option.some.injEq] at h
            obtain ⟨hts, _⟩ := h
            subst hts
            exact hstk p (List.mem_cons_self p rest) _ hps
      · -- remaining action heads: recovery
        split at h
        · rename_i heq
          exact ih _ _ _ (stkOK_cons hstk (GoodT_leaf (Or.inl (findInsert_le heq)))) t d h
        · split at h
          · simp at h
          · exact ih _ _ _ hstk t d h
/-- Code points of the source text `rect @box1 { width: 10 fill: FF0000 }` (escaped). -/
def inScenA : List Nat := [114, 101, 99, 116, 32, 64, 98, 111, 120, 49, 32, 123, 32, 119, 105, 100, 116, 104, 58, 32, 49, 48, 32, 102, 105, 108, 108, 58, 32, 70, 70, 48, 48, 48, 48, 32, 125]

/-- Code points of the source text `rect @box1 { width = 10 fill = FF0000 }` (escaped). -/
def inScenAbad : List Nat := [114, 101, 99, 116, 32, 64, 98, 111, 120, 49, 32, 123, 32, 119, 105, 100, 116, 104, 32, 61, 32, 49, 48, 32, 102, 105, 108, 108, 32, 61, 32, 70, 70, 48, 48, 48, 48, 32, 125]

/-- Code points of the source text `##accept\n: \"looks good\"` (escaped). -/
def inScenB : List Nat := [35, 35, 97, 99, 99, 101, 112, 116, 10, 58, 32, 34, 108, 111, 111, 107, 115, 32, 103, 111, 111, 100, 34]

/-- Code points of the source text `@accept \"looks good\"` (escaped). -/
def inScenBbad : List Nat := [64, 97, 99, 99, 101, 112, 116, 32, 34, 108, 111, 111, 107, 115, 32, 103, 111, 111, 100, 34]

/-- Code points of the source text `@box1 -> box2 : depends_on` (escaped). -/
def inScenC : List Nat := [64, 98, 111, 120, 49, 32, 45, 62, 32, 98, 111, 120, 50, 32, 58, 32, 100, 101, 112, 101, 110, 100, 115, 95, 111, 110]

/-- Code points of the source text `box1 -> box2 : depends_on` (escaped). -/
def inScenCbad : List Nat := [98, 111, 120, 49, 32, 45, 62, 32, 98, 111, 120, 50, 32, 58, 32, 100, 101, 112, 101, 110, 100, 115, 95, 111, 110]

/-- Code points of the source text `rect @box1 { width: }` (escaped). -/
def inScenE : List Nat := [114, 101, 99, 116, 32, 64, 98, 111, 120, 49, 32, 123, 32, 119, 105, 100, 116, 104, 58, 32, 125]

/-- Code points of the source text `rect @box1 { width = }` (escaped). -/
def inScenEbad : List Nat := [114, 101, 99, 116, 32, 64, 98, 111, 120, 49, 32, 123, 32, 119, 105, 100, 116, 104, 32, 61, 32, 125]

/-- Code points of the source text `rect { }` (escaped). -/
def inNoId : List Nat := [114, 101, 99, 116, 32, 123, 32, 125]

/-- Code points of the source text `rect @box1` (escaped). -/
def inNoBody : List Nat := [114, 101, 99, 116, 32, 64, 98, 111, 120, 49]

/-- Code points of the source text `rect @r { w: 1 2 }` (escaped). -/
def inTwoVals : List Nat := [114, 101, 99, 116, 32, 64, 114, 32, 123, 32, 119, 58, 32, 49, 32, 50, 32, 125]

/-- Code points of the source text `#ABC` (escaped). -/
def inHexA : List Nat := [35, 65, 66, 67]

/-- Code points of the source text `-5` (escaped). -/
def inMinusFive : List Nat := [45, 53]

/-- Code points of the source text `FF0000` (escaped). -/
def inFF : List Nat := [70, 70, 48, 48, 48, 48]

/-! ### Claim-level accessors -/

def RawNode.childAt (n : RawNode) (i : Nat) : Option RawNode :=
  n.childrenOf.get? i

/-- Number of nodes with the given symbol in the parse of `input`
(zero when no tree is returned). -/
def treeCountD (input : List Nat) (sym : Nat) : Nat :=
  match parseTree input with
  | some t => countSym t sym
  | none => 0

/-- The i-th node with the given symbol (preorder) in the parse of `input`. -/
def nodeAt (input : List Nat) (sym i : Nat) : Option RawNode :=
  match parseTree input with
  | some t => (nodesOf t sym).get? i
  | none => none

/-- Symbol and source text of a leaf. -/
def leafInfo (input : List Nat) : Option RawNode → Option (Nat × List Nat)
  | some (.leaf s a b _) => some (s, tokText input a b)
  | _ => none


/-! ### Claim-level predicates used by the universal theorems -/

/-- A node_declaration binds its kind field: the field resolves to child 0,
and in a synthetic-free tree that child is non-synthetic (trivially true for
all other nodes). -/
def ndeclKindOK (n : RawNode) : Bool :=
  !(n.symOf == symNodeDecl) ||
    ((fieldOf n fidKind).isSome &&
      (!(noMissing n) || (fieldOf n fidKind).all fun c => !c.isMissing))

/-- A property node has exactly three children (name, colon, value part)
and its name field resolves (trivially true for other nodes). -/
def propOKb (n : RawNode) : Bool :=
  !(n.symOf == symProperty) ||
    (n.childrenOf.length == 3 && (fieldOf n fidName).isSome)

theorem parseTree_good {input : List Nat} {t : RawNode}
    (h : parseTree input = some t) : GoodT t := by
  rcases hrun : runP input (20 * input.length + 200) [] 0 0 with ⟨ot, d⟩
  have hot : ot = some t := by
    rw [parseTree, parseFd, hrun] at h
    exact h
  subst hot
  exact runP_good input _ [] 0 0 stkOK_nil t d hrun

theorem fieldOf_kind_eq {pid : Nat} (cs : List RawNode)
    (hpid : pid = 1 ∨ pid = 4 ∨ pid = 5 ∨ pid = 7) :
    fieldOf (RawNode.node symNodeDecl pid cs) fidKind = cs.get? 0 := by
  rcases hpid with h | h | h | h <;> subst h <;> rfl

theorem fieldOf_name_eq (cs : List RawNode) :
    fieldOf (RawNode.node symProperty 6 cs) fidName = cs.get? 0 := rfl

theorem symNodeDecl_val : symNodeDecl = 51 := rfl

theorem errSym_val : errSym = 1000 := rfl

/-- C5 universal part: every node_declaration node in any tree the parser
returns resolves its kind field, non-synthetically when the tree is free of
synthetic tokens. -/
theorem node_decl_kind_present (input : List Nat) (t : RawNode)
    (h : parseTree input = some t) (fuel : Nat) :
    (allNodesF fuel t).all ndeclKindOK = true := by
  have hg := parseTree_good h
  rw [List.all_eq_true]
  intro n hn
  have hok := GoodT_elim hg hn
  cases n with
  | leaf sym a b m =>
    have hne : sym ≠ symNodeDecl := by
      rw [nodeOK, Bool.or_eq_true, decide_eq_true_eq, beq_iff_eq,
        errSym_val] at hok
      rw [symNodeDecl_val]
      rcases hok with hx | hx <;> omega
    rw [ndeclKindOK]
    simp [RawNode.symOf, hne]
  | node sym pid cs =>
    by_cases hs : sym = symNodeDecl
    · subst hs
      rw [nodeOK] at hok
      have hpid : pid = 1 ∨ pid = 4 ∨ pid = 5 ∨ pid = 7 := by
        by_contra hc
        push_neg at hc
        obtain ⟨a1, a4, a5, a7⟩ := hc
        simp [prodOKn, a1, a4, a5, a7] at hok
      have hlen : 3 ≤ cs.length := by
        rcases hpid with hx | hx | hx | hx <;> subst hx <;>
          simp [prodOKn] at hok <;> omega
      have hf := fieldOf_kind_eq cs hpid
      rcases hcs : cs with _ | ⟨c0, crest⟩
      · rw [hcs] at hlen
        simp at hlen
      · subst hcs
        have hf0 : fieldOf (RawNode.node symNodeDecl pid (c0 :: crest)) fidKind
            = some c0 := by
          rw [hf]
          rfl
        rw [ndeclKindOK, hf0]
        simp only [RawNode.symOf, beq_self_eq_true, Bool.not_true, Bool.false_or,
          Option.isSome_some, Bool.true_and, Option.all_some]
        by_cases hm : noMissing (RawNode.node symNodeDecl pid (c0 :: crest)) = true
        · have hc0mem : c0 ∈ allNodes (RawNode.node symNodeDecl pid (c0 :: crest)) := by
            show c0 ∈ RawNode.node symNodeDecl pid (c0 :: crest) ::
              (c0 :: crest).flatMap (allNodesF 999)
            exact List.mem_cons_of_mem _ (List.mem_flatMap.mpr
              ⟨c0, List.mem_cons_self _ _, self_mem_allNodesF (by omega) c0⟩)
          rw [noMissing, List.all_eq_true] at hm
          have hcm := hm c0 hc0mem
          simp only [Bool.not_eq_eq_eq_not, Bool.not_true] at hcm
          simp [hm, hcm, noMissing]
        · have : noMissing (RawNode.node symNodeDecl pid (c0 :: crest)) = false := by
            revert hm
            cases noMissing (RawNode.node symNodeDecl pid (c0 :: crest)) <;> simp
          simp [this]
    · rw [ndeclKindOK]
      simp [RawNode.symOf, hs]

/-- C6 universal part: every property node in any tree the parser returns
has exactly three children and a resolved name field. -/
theorem property_node_shape (input : List Nat) (t : RawNode)
    (h : parseTree input = some t) (fuel : Nat) :
    (allNodesF fuel t).all propOKb = true := by
  have hg := parseTree_good h
  rw [List.all_eq_true]
  intro n hn
  have hok := GoodT_elim hg hn
  cases n with
  | leaf sym a b m =>
    have hne : sym ≠ symProperty := by
      rw [nodeOK, Bool.or_eq_true, decide_eq_true_eq, beq_iff_eq,
        errSym_val] at hok
      show sym ≠ 54
      rcases hok with hx | hx <;> omega
    rw [propOKb]
    simp [RawNode.symOf, hne]
  | node sym pid cs =>
    by_cases hs : sym = symProperty
    · subst hs
      rw [nodeOK] at hok
      have hpl : pid = 6 ∧ cs.length = 3 := by
        simp [prodOKn] at hok
        exact hok
      obtain ⟨hp6, hl3⟩ := hpl
      subst hp6
      rcases hcs : cs with _ | ⟨c0, crest⟩
      · rw [hcs] at hl3
        simp at hl3
      · subst hcs
        rw [propOKb]
        have hf0 : fieldOf (RawNode.node symProperty 6 (c0 :: crest)) fidName
            = some c0 := by
          rw [fieldOf_name_eq]
          rfl
        simp [RawNode.symOf, RawNode.childrenOf, hf0, hl3]
    · rw [propOKb]
      simp [RawNode.symOf, hs]

/-! ### The claims -/

/-- The tree the parser returns for `rect` with an empty braced body (no
id), used to instantiate the universal node_declaration theorem. -/
def wTreeNoId : RawNode :=
  RawNode.node 46 0 [RawNode.node 51 1 [RawNode.node 52 0 [RawNode.leaf 13 0 4 false],
    RawNode.leaf 10 5 6 false, RawNode.leaf 11 7 8 false]]

/-- The tree the parser returns for `rect @r` with body `w: 1 2`, used to
instantiate the universal property theorem. -/
def wTreeTwoVals : RawNode :=
  RawNode.node 46 0 [RawNode.node 51 4 [RawNode.node 52 0 [RawNode.leaf 13 0 4 false],
    RawNode.node 61 0 [RawNode.leaf 40 5 6 false, RawNode.leaf 41 6 7 false],
    RawNode.leaf 10 8 9 false,
    RawNode.node 53 0 [RawNode.node 54 6 [RawNode.node 55 0 [RawNode.leaf 17 10 11 false],
      RawNode.leaf 3 11 12 false,
      RawNode.node 66 0 [RawNode.leaf 42 13 14 false, RawNode.leaf 42 15 16 false]]],
    RawNode.leaf 11 17 18 false]]

/-- C1: annotations are introduced by `##`, not `@`.  Parsing the source
`##accept` newline `: "looks good"` yields one annotation holding a typed
annotation whose key field is the annotation keyword `accept` and whose
value field is the annotation text proper. -/
theorem annotation_hash_scenario :
    parseDiags inScenB = 0 ∧
    treeCountD inScenB symAnnot = 1 ∧
    ((nodeAt inScenB symAnnotTyped 0).bind (fieldOf · fidKey)).map RawNode.symOf
      = some symAnnotKeyword ∧
    leafInfo inScenB (((nodeAt inScenB symAnnotTyped 0).bind (fieldOf · fidKey)).bind
      (RawNode.childAt · 0)) = some (kwAccept, [97, 99, 99, 101, 112, 116]) ∧
    leafInfo inScenB ((nodeAt inScenB symAnnotTyped 0).bind (fieldOf · fidValue))
      = some (symAnnText, [32, 34, 108, 111, 111, 107, 115, 32, 103, 111, 111, 100, 34]) :=
  ⟨by decide, by decide, by decide, by decide, by decide⟩

/-- C1 counterexample: the specification's input `@accept "looks good"`
parses to no annotation node at all (the `@` begins a node_id), with four
diagnostics. -/
theorem annotation_at_cx :
    treeCountD inScenBbad symAnnot = 0 ∧ parseDiags inScenBbad = 4 :=
  ⟨by decide, by decide⟩

/-- C2: a constraint line needs a node_id source: `@box1 -> box2 : depends_on`
parses to one constraint_line whose target field is the node_id `@box1`
(child 0, not the right-hand side) and whose constraint_type field is the
identifier `box2` (child 2, not the trailing identifier). -/
theorem constraint_line_scenario :
    parseDiags inScenC = 0 ∧
    treeCountD inScenC symConstraintLine = 1 ∧
    ((nodeAt inScenC symConstraintLine 0).bind (fieldOf · fidTarget)).map RawNode.symOf
      = some symNodeId ∧
    leafInfo inScenC (((nodeAt inScenC symConstraintLine 0).bind (fieldOf · fidTarget)).bind
      (RawNode.childAt · 1)) = some (symIdent, [98, 111, 120, 49]) ∧
    leafInfo inScenC ((nodeAt inScenC symConstraintLine 0).bind (fieldOf · fidConstraintType))
      = some (symIdent, [98, 111, 120, 50]) :=
  ⟨by decide, by decide, by decide, by decide, by decide⟩

/-- C2 counterexample: the specification's input `box1 -> box2 : depends_on`
(bare identifier source) parses to no constraint_line at all, with six
diagnostics. -/
theorem constraint_line_cx :
    treeCountD inScenCbad symConstraintLine = 0 ∧ parseDiags inScenCbad = 6 :=
  ⟨by decide, by decide⟩

/-- C3: properties are written with `:`, not `=`.  Parsing
`rect @box1 ... width: 10 fill: FF0000 ...` yields one node_declaration
(kind `rect`, id `@box1`) with two properties: `width` valued by the number
token `10` and `fill` valued by the identifier token `FF0000` (not a
hex_color token, which requires a leading hash mark). -/
theorem node_decl_scenario :
    parseDiags inScenA = 0 ∧
    treeCountD inScenA symNodeDecl = 1 ∧
    treeCountD inScenA symProperty = 2 ∧
    leafInfo inScenA (((nodeAt inScenA symNodeDecl 0).bind (fieldOf · fidKind)).bind
      (RawNode.childAt · 0)) = some (kwRect, [114, 101, 99, 116]) ∧
    leafInfo inScenA (((nodeAt inScenA symNodeDecl 0).bind (fieldOf · fidId)).bind
      (RawNode.childAt · 1)) = some (symIdent, [98, 111, 120, 49]) ∧
    leafInfo inScenA (((nodeAt inScenA symProperty 0).bind (fieldOf · fidName)).bind
      (RawNode.childAt · 0)) = some (kwWidth, [119, 105, 100, 116, 104]) ∧
    leafInfo inScenA ((nodeAt inScenA symProperty 0).bind (RawNode.childAt · 2))
      = some (symNumber, [49, 48]) ∧
    leafInfo inScenA (((nodeAt inScenA symProperty 1).bind (fieldOf · fidName)).bind
      (RawNode.childAt · 0)) = some (kwFill, [102, 105, 108, 108]) ∧
    leafInfo inScenA (((nodeAt inScenA symProperty 1).bind (RawNode.childAt · 2)).bind
      (RawNode.childAt · 0)) = some (symIdent, [70, 70, 48, 48, 48, 48]) :=
  ⟨by decide, by decide, by decide, by decide, by decide, by decide, by decide,
   by decide, by decide⟩

/-- C3 counterexample: the specification's input with `=` signs,
`rect @box1 ... width = 10 fill = FF0000 ...`, parses to no property node
at all, with seven diagnostics. -/
theorem node_decl_eq_cx :
    treeCountD inScenAbad symProperty = 0 ∧ parseDiags inScenAbad = 7 :=
  ⟨by decide, by decide⟩

/-- C4: every token ts_lex classifies as hex_color has text consisting of a
leading hash mark followed by 3 to 8 hexadecimal digits (the specification
claimed 1 to 6 bare digits with no hash prefix). -/
theorem hex_color_token_shape (input : List Nat) (pos mode : Nat)
    (hm : mode ∈ lexModes) (out : LexOut) (h : lexRun input pos mode = some out)
    (e : Nat) (he : out.res = some (symHexColor, e)) :
    hexTextB (tokText input out.tokStart e) = true := by
  have hb := lexRun_shape input pos mode hm out h
  rw [he] at hb
  exact hb.2.2 rfl

/-- C4 witness: in lex mode 4 the input `#ABC` lexes to one hex_color token
spanning all four code points, and its text has the corrected shape. -/
theorem hex_color_token_shape_witness :
    (4 : Nat) ∈ lexModes ∧
    lexRun inHexA 0 4 = some ⟨some (symHexColor, 4), 0⟩ ∧
    hexTextB (tokText inHexA 0 4) = true :=
  ⟨by decide, by decide,
    hex_color_token_shape inHexA 0 4 (by decide) ⟨some (symHexColor, 4), 0⟩
      (by decide) 4 rfl⟩

/-- C4 counterexample: the hex_color token for `#ABC` fails the
specification's bare 1-to-6-digit shape, while the bare digit run `FF0000`
lexes as an identifier token, not a hex_color. -/
theorem hex_color_spec_cx :
    (nextToken inHexA 0 4).sym = symHexColor ∧
    specHexText (tokText inHexA 0 4) = false ∧
    (nextToken inFF 0 3).sym = symIdent ∧
    (nextToken inFF 0 3).tokEnd = 6 :=
  ⟨by decide, by decide, by decide, by decide⟩

/-- C5: in a node_declaration the kind is required and resolves as a field
on every tree the parser returns (non-synthetically when the tree has no
synthetic token), while the id is optional: `rect ... ` with no id parses
cleanly with the id field absent, and a missing body is a syntax error. -/
theorem node_decl_kind_required_id_optional (input : List Nat) (t : RawNode)
    (h : parseTree input = some t) (fuel : Nat) :
    (allNodesF fuel t).all ndeclKindOK = true ∧
    parseDiags inNoId = 0 ∧
    treeCountD inNoId symNodeDecl = 1 ∧
    ((nodeAt inNoId symNodeDecl 0).bind (fieldOf · fidId)).isSome = false ∧
    ((nodeAt inNoId symNodeDecl 0).bind (fieldOf · fidKind)).isSome = true ∧
    parseDiags inNoBody = 1 :=
  ⟨node_decl_kind_present input t h fuel, by decide, by decide, by decide,
   by decide, by decide⟩

/-- C5 witness at the concrete input `rect` with an empty braced body and
its actual parse tree. -/
theorem node_decl_kind_required_id_optional_witness :
    parseTree inNoId = some wTreeNoId ∧
    ((allNodesF 10 wTreeNoId).all ndeclKindOK = true ∧
     parseDiags inNoId = 0 ∧
     treeCountD inNoId symNodeDecl = 1 ∧
     ((nodeAt inNoId symNodeDecl 0).bind (fieldOf · fidId)).isSome = false ∧
     ((nodeAt inNoId symNodeDecl 0).bind (fieldOf · fidKind)).isSome = true ∧
     parseDiags inNoBody = 1) :=
  ⟨rfl, node_decl_kind_required_id_optional inNoId wTreeNoId rfl 10⟩

/-- C5 counterexample: `rect` with an empty braced body and no id parses
with no diagnostic and its node_declaration has no id field, while `rect
@box1` without a body is a syntax error — refuting "the id is never absent,
while the body may be". -/
theorem node_decl_id_absent_cx :
    parseDiags inNoId = 0 ∧
    ((nodeAt inNoId symNodeDecl 0).bind (fieldOf · fidId)).isSome = false ∧
    parseDiags inNoBody = 1 :=
  ⟨by decide, by decide, by decide⟩

/-- C6: a property is property_name `:` value-items — on every tree the
parser returns each property node has exactly three children (name, colon,
value part) with a resolved name field, and the value part after the colon
may hold more than one value item: `w: 1 2` parses cleanly with two number
values under one property. -/
theorem property_colon_values (input : List Nat) (t : RawNode)
    (h : parseTree input = some t) (fuel : Nat) :
    (allNodesF fuel t).all propOKb = true ∧
    parseDiags inTwoVals = 0 ∧
    treeCountD inTwoVals symProperty = 1 ∧
    leafInfo inTwoVals ((nodeAt inTwoVals symProperty 0).bind (RawNode.childAt · 1))
      = some (symColon, [58]) ∧
    ((nodeAt inTwoVals symProperty 0).bind (RawNode.childAt · 2)).map
      (fun n => n.childrenOf.length) = some 2 :=
  ⟨property_node_shape input t h fuel, by decide, by decide, by decide, by decide⟩

/-- C6 witness at the concrete input `rect @r` with body `w: 1 2` and its
actual parse tree. -/
theorem property_colon_values_witness :
    parseTree inTwoVals = some wTreeTwoVals ∧
    ((allNodesF 10 wTreeTwoVals).all propOKb = true ∧
     parseDiags inTwoVals = 0 ∧
     treeCountD inTwoVals symProperty = 1 ∧
     leafInfo inTwoVals ((nodeAt inTwoVals symProperty 0).bind (RawNode.childAt · 1))
       = some (symColon, [58]) ∧
     ((nodeAt inTwoVals symProperty 0).bind (RawNode.childAt · 2)).map
       (fun n => n.childrenOf.length) = some 2) :=
  ⟨rfl, property_colon_values inTwoVals wTreeTwoVals rfl 10⟩

/-- C6 counterexample: in the parsed property of `w: 1 2` the separator
child is the colon token, not `=`, and the value part holds two value items,
not exactly one value child. -/
theorem property_two_values_cx :
    parseDiags inTwoVals = 0 ∧
    leafInfo inTwoVals ((nodeAt inTwoVals symProperty 0).bind (RawNode.childAt · 1))
      = some (symColon, [58]) ∧
    ((nodeAt inTwoVals symProperty 0).bind (RawNode.childAt · 2)).map RawNode.symOf
      = some 66 ∧
    ((nodeAt inTwoVals symProperty 0).bind (RawNode.childAt · 2)).map
      (fun n => n.childrenOf.length) = some 2 :=
  ⟨by decide, by decide, by decide, by decide⟩

/-- C7: every token ts_lex classifies as a number has text matching an
optional leading minus sign, digits, an optional single dot-fraction and an
optional trailing `ms` suffix (the specification's grammar omits the
minus sign). -/
theorem number_token_shape (input : List Nat) (pos mode : Nat)
    (hm : mode ∈ lexModes) (out : LexOut) (h : lexRun input pos mode = some out)
    (e : Nat) (he : out.res = some (symNumber, e)) :
    numberTextB (tokText input out.tokStart e) = true := by
  have hb := lexRun_shape input pos mode hm out h
  rw [he] at hb
  exact hb.2.1 rfl

/-- C7 witness: in lex mode 4 the input `-5` lexes to one number token
spanning both code points, and its text has the corrected shape. -/
theorem number_token_shape_witness :
    (4 : Nat) ∈ lexModes ∧
    lexRun inMinusFive 0 4 = some ⟨some (symNumber, 2), 0⟩ ∧
    numberTextB (tokText inMinusFive 0 2) = true :=
  ⟨by decide, by decide,
    number_token_shape inMinusFive 0 4 (by decide) ⟨some (symNumber, 2), 0⟩
      (by decide) 2 rfl⟩

/-- C7 counterexample: the number token for `-5` fails the specification's
unsigned shape while fitting the corrected signed one. -/
theorem number_spec_cx :
    (nextToken inMinusFive 0 4).sym = symNumber ∧
    (nextToken inMinusFive 0 4).tokEnd = 2 ∧
    specNumberText (tokText inMinusFive 0 2) = false ∧
    numberTextB (tokText inMinusFive 0 2) = true :=
  ⟨by decide, by decide, by decide, by decide⟩

/-- C8: missing-value recovery, for the colon form of the scenario:
`rect @box1 ... width: ...` with the value absent parses with exactly one
diagnostic to a document whose single property has a value child holding a
synthetic (missing) token, and the parse continues past the closing brace
of the declaration. -/
theorem missing_value_recovery :
    parseDiags inScenE = 1 ∧
    treeCountD inScenE symProperty = 1 ∧
    treeCountD inScenE symDocument = 1 ∧
    ((nodeAt inScenE symProperty 0).bind (RawNode.childAt · 2)).map RawNode.symOf
      = some symValueItem ∧
    (((nodeAt inScenE symProperty 0).bind (RawNode.childAt · 2)).bind
      (RawNode.childAt · 0)).map RawNode.isMissing = some true ∧
    leafInfo inScenE ((nodeAt inScenE symNodeDecl 0).bind (RawNode.childAt · 4))
      = some (symRBrace, [125]) :=
  ⟨by decide, by decide, by decide, by decide, by decide, by decide⟩

/-- C8 counterexample: the specification's exact malformed input
`rect @box1 ... width = ...` produces three diagnostics and no property
node, not one diagnostic with a recovered property. -/
theorem missing_value_eq_cx :
    parseDiags inScenEbad = 3 ∧ treeCountD inScenEbad symProperty = 0 :=
  ⟨by decide, by decide⟩

/-- C10: parsing is deterministic — the lexer and action tables are pure
functions of state and input, so equal sources give equal parses. -/
theorem parse_deterministic (s1 s2 : List Nat) (h : s1 = s2) :
    parseFd s1 = parseFd s2 := by
  rw [h]

/-- C10 witness: parsing the same concrete source twice yields the same
tree and diagnostics. -/
theorem parse_deterministic_witness :
    inNoId = inNoId ∧ parseFd inNoId = parseFd inNoId :=
  ⟨rfl, parse_deterministic inNoId inNoId rfl⟩
